import Mathlib

/-!
Shallow embedding of the 2-D GLM-MHD finite-volume solver
(`src/grid.cpp`, `src/grid.hpp`, `src/solver.cpp`, `src/solver.hpp`)
over exact real arithmetic.  Machine doubles are modelled by `ℝ`;
the 2-D `nx × ny` arrays of the source are modelled as functions
`ℕ → ℕ → ℝ` (all reads performed by the source are inside `[0,nx) × [0,ny)`,
so the function view agrees with the array view on every index the code
touches).  Construction-time behaviour (`Grid::Grid`, `FlowField::FlowField`)
is modelled separately with explicit `List`-backed storage so that array
sizes are observable.
-/

namespace MHD

noncomputable section

/-- Magnetic diffusivity, `static constexpr double ETA = 0.001;` (solver.cpp line 9). -/
def ETA : ℝ := 0.001

/-- GLM wave speed, `static constexpr double CH = 0.8;` (solver.cpp line 10). -/
def CH : ℝ := 0.8

/-- GLM damping coefficient, `static constexpr double CR = 0.01;` (solver.cpp line 11). -/
def CR : ℝ := 0.01

/-- Adiabatic index, `static constexpr double gamma_gas = 5.0/3.0;` (solver.cpp line 12). -/
def gamma_gas : ℝ := 5 / 3

/-- Five-point Laplacian stencil, `laplacian` (solver.cpp lines 15-18).
The source reads the geometry (`dx`, `dy`) and the data of one `Grid`;
here geometry and data are passed separately. -/
def laplacian (dx dy : ℝ) (f : ℕ → ℕ → ℝ) (i j : ℕ) : ℝ :=
  (f (i + 1) j - 2 * f i j + f (i - 1) j) / (dx * dx)
    + (f i (j + 1) - 2 * f i j + f i (j - 1)) / (dy * dy)

/-- Minmod slope limiter (solver.cpp lines 21-24). -/
def minmod (a b : ℝ) : ℝ :=
  if a * b ≤ 0 then 0 else if |a| < |b| then a else b

/-- Fast magnetosonic speed (solver.cpp lines 27-31). -/
def compute_fast_speed (rho p Bx By : ℝ) : ℝ :=
  Real.sqrt (gamma_gas * p / rho + (Bx * Bx + By * By) / rho)

/-- The 7-component numerical flux record (solver.cpp lines 34-36). -/
structure HLLFlux where
  F_rho : ℝ
  F_momx : ℝ
  F_momy : ℝ
  F_E : ℝ
  F_Bx : ℝ
  F_By : ℝ
  F_psi : ℝ

/-- HLL flux in the x direction (solver.cpp lines 39-100). -/
def compute_hll_flux_x (rhoL uL vL pL BxL ByL psiL rhoR uR vR pR BxR ByR psiR : ℝ) :
    HLLFlux :=
  let B2L := BxL * BxL + ByL * ByL
  let B2R := BxR * BxR + ByR * ByR
  let ptL := pL + 0.5 * B2L
  let ptR := pR + 0.5 * B2R
  let EL := pL / (gamma_gas - 1) + 0.5 * rhoL * (uL * uL + vL * vL) + 0.5 * B2L
  let ER := pR / (gamma_gas - 1) + 0.5 * rhoR * (uR * uR + vR * vR) + 0.5 * B2R
  let cfL := compute_fast_speed rhoL pL BxL ByL
  let cfR := compute_fast_speed rhoR pR BxR ByR
  let SL := min (uL - cfL) (uR - cfR)
  let SR := max (uL + cfL) (uR + cfR)
  if SL > 0 then
    { F_rho := rhoL * uL
      F_momx := rhoL * uL * uL + ptL - BxL * BxL
      F_momy := rhoL * uL * vL - BxL * ByL
      F_E := (EL + ptL) * uL - BxL * (uL * BxL + vL * ByL)
      F_Bx := psiL
      F_By := uL * ByL - vL * BxL
      F_psi := CH * CH * BxL }
  else if SR < 0 then
    { F_rho := rhoR * uR
      F_momx := rhoR * uR * uR + ptR - BxR * BxR
      F_momy := rhoR * uR * vR - BxR * ByR
      F_E := (ER + ptR) * uR - BxR * (uR * BxR + vR * ByR)
      F_Bx := psiR
      F_By := uR * ByR - vR * BxR
      F_psi := CH * CH * BxR }
  else
    let FL_rho := rhoL * uL
    let FR_rho := rhoR * uR
    let FL_momx := rhoL * uL * uL + ptL - BxL * BxL
    let FR_momx := rhoR * uR * uR + ptR - BxR * BxR
    let FL_momy := rhoL * uL * vL - BxL * ByL
    let FR_momy := rhoR * uR * vR - BxR * ByR
    let FL_E := (EL + ptL) * uL - BxL * (uL * BxL + vL * ByL)
    let FR_E := (ER + ptR) * uR - BxR * (uR * BxR + vR * ByR)
    let FL_By := uL * ByL - vL * BxL
    let FR_By := uR * ByR - vR * BxR
    { F_rho := (SR * FL_rho - SL * FR_rho + SL * SR * (rhoR - rhoL)) / (SR - SL)
      F_momx := (SR * FL_momx - SL * FR_momx + SL * SR * (rhoR * uR - rhoL * uL)) / (SR - SL)
      F_momy := (SR * FL_momy - SL * FR_momy + SL * SR * (rhoR * vR - rhoL * vL)) / (SR - SL)
      F_E := (SR * FL_E - SL * FR_E + SL * SR * (ER - EL)) / (SR - SL)
      F_Bx := (SR * psiL - SL * psiR + SL * SR * (BxR - BxL)) / (SR - SL)
      F_By := (SR * FL_By - SL * FR_By + SL * SR * (ByR - ByL)) / (SR - SL)
      F_psi := CH * CH * (SR * BxL - SL * BxR + SL * SR * (psiR - psiL)) / (SR - SL) }

/-- HLL flux in the y direction (solver.cpp lines 103-160). -/
def compute_hll_flux_y (rhoL uL vL pL BxL ByL psiL rhoR uR vR pR BxR ByR psiR : ℝ) :
    HLLFlux :=
  let B2L := BxL * BxL + ByL * ByL
  let B2R := BxR * BxR + ByR * ByR
  let ptL := pL + 0.5 * B2L
  let ptR := pR + 0.5 * B2R
  let EL := pL / (gamma_gas - 1) + 0.5 * rhoL * (uL * uL + vL * vL) + 0.5 * B2L
  let ER := pR / (gamma_gas - 1) + 0.5 * rhoR * (uR * uR + vR * vR) + 0.5 * B2R
  let cfL := compute_fast_speed rhoL pL BxL ByL
  let cfR := compute_fast_speed rhoR pR BxR ByR
  let SL := min (vL - cfL) (vR - cfR)
  let SR := max (vL + cfL) (vR + cfR)
  if SL > 0 then
    { F_rho := rhoL * vL
      F_momx := rhoL * vL * uL - ByL * BxL
      F_momy := rhoL * vL * vL + ptL - ByL * ByL
      F_E := (EL + ptL) * vL - ByL * (uL * BxL + vL * ByL)
      F_Bx := vL * BxL - uL * ByL
      F_By := psiL
      F_psi := CH * CH * ByL }
  else if SR < 0 then
    { F_rho := rhoR * vR
      F_momx := rhoR * vR * uR - ByR * BxR
      F_momy := rhoR * vR * vR + ptR - ByR * ByR
      F_E := (ER + ptR) * vR - ByR * (uR * BxR + vR * ByR)
      F_Bx := vR * BxR - uR * ByR
      F_By := psiR
      F_psi := CH * CH * ByR }
  else
    let FL_rho := rhoL * vL
    let FR_rho := rhoR * vR
    let FL_momx := rhoL * vL * uL - ByL * BxL
    let FR_momx := rhoR * vR * uR - ByR * BxR
    let FL_momy := rhoL * vL * vL + ptL - ByL * ByL
    let FR_momy := rhoR * vR * vR + ptR - ByR * ByR
    let FL_E := (EL + ptL) * vL - ByL * (uL * BxL + vL * ByL)
    let FR_E := (ER + ptR) * vR - ByR * (uR * BxR + vR * ByR)
    let FL_Bx := vL * BxL - uL * ByL
    let FR_Bx := vR * BxR - uR * ByR
    { F_rho := (SR * FL_rho - SL * FR_rho + SL * SR * (rhoR - rhoL)) / (SR - SL)
      F_momx := (SR * FL_momx - SL * FR_momx + SL * SR * (rhoR * uR - rhoL * uL)) / (SR - SL)
      F_momy := (SR * FL_momy - SL * FR_momy + SL * SR * (rhoR * vR - rhoL * vL)) / (SR - SL)
      F_E := (SR * FL_E - SL * FR_E + SL * SR * (ER - EL)) / (SR - SL)
      F_Bx := (SR * FL_Bx - SL * FR_Bx + SL * SR * (BxR - BxL)) / (SR - SL)
      F_By := (SR * psiL - SL * psiR + SL * SR * (ByR - ByL)) / (SR - SL)
      F_psi := CH * CH * (SR * ByL - SL * ByR + SL * SR * (psiR - psiL)) / (SR - SL) }

/-- Function view of the source's `FlowField` (the spec's FlowState): eight
co-located scalar fields sharing one geometry.  The solver reads the geometry
of `flow.rho` (`Grid& grid = flow.rho;`, solver.cpp line 219) and the
`FlowField` constructor guarantees all eight grids share it, so the shared
geometry is represented once.  The source field `by` is called `By` here
(`by` is reserved in Lean), and `bx` is `Bx` to match. -/
@[ext]
structure FlowState where
  nx : ℕ
  ny : ℕ
  dx : ℝ
  dy : ℝ
  x0 : ℝ
  y0 : ℝ
  rho : ℕ → ℕ → ℝ
  u : ℕ → ℕ → ℝ
  v : ℕ → ℕ → ℝ
  p : ℕ → ℕ → ℝ
  e : ℕ → ℕ → ℝ
  Bx : ℕ → ℕ → ℝ
  By : ℕ → ℕ → ℝ
  psi : ℕ → ℕ → ℝ

/-- Limited slope in x (solver.cpp lines 259-278): written for
`1 ≤ i ≤ nx-2` (all `j`), zero elsewhere (the slope arrays are
zero-initialised, lines 251-257). -/
def slope_x (nx : ℕ) (f : ℕ → ℕ → ℝ) (i j : ℕ) : ℝ :=
  if 1 ≤ i ∧ i < nx - 1 then
    minmod (f i j - f (i - 1) j) (f (i + 1) j - f i j)
  else 0

/-- Limited slope in y (solver.cpp lines 280-299): written for
`1 ≤ j ≤ ny-2` (all `i`), zero elsewhere. -/
def slope_y (ny : ℕ) (f : ℕ → ℕ → ℝ) (i j : ℕ) : ℝ :=
  if 1 ≤ j ∧ j < ny - 1 then
    minmod (f i j - f i (j - 1)) (f i (j + 1) - f i j)
  else 0

/-- The MUSCL-reconstructed x-face flux at face `i+1/2`, row `j`
(solver.cpp lines 324-341; the call at lines 343-360 for cell `i` is this
same value taken at `i-1`). -/
def fluxX (fl : FlowState) (i j : ℕ) : HLLFlux :=
  compute_hll_flux_x
    (fl.rho i j + 0.5 * slope_x fl.nx fl.rho i j)
    (fl.u i j + 0.5 * slope_x fl.nx fl.u i j)
    (fl.v i j + 0.5 * slope_x fl.nx fl.v i j)
    (fl.p i j + 0.5 * slope_x fl.nx fl.p i j)
    (fl.Bx i j + 0.5 * slope_x fl.nx fl.Bx i j)
    (fl.By i j + 0.5 * slope_x fl.nx fl.By i j)
    (fl.psi i j + 0.5 * slope_x fl.nx fl.psi i j)
    (fl.rho (i + 1) j - 0.5 * slope_x fl.nx fl.rho (i + 1) j)
    (fl.u (i + 1) j - 0.5 * slope_x fl.nx fl.u (i + 1) j)
    (fl.v (i + 1) j - 0.5 * slope_x fl.nx fl.v (i + 1) j)
    (fl.p (i + 1) j - 0.5 * slope_x fl.nx fl.p (i + 1) j)
    (fl.Bx (i + 1) j - 0.5 * slope_x fl.nx fl.Bx (i + 1) j)
    (fl.By (i + 1) j - 0.5 * slope_x fl.nx fl.By (i + 1) j)
    (fl.psi (i + 1) j - 0.5 * slope_x fl.nx fl.psi (i + 1) j)

/-- The MUSCL-reconstructed y-face flux at face `j+1/2`, column `i`
(solver.cpp lines 363-380; the call at lines 382-399 for cell `j` is this
same value taken at `j-1`). -/
def fluxY (fl : FlowState) (i j : ℕ) : HLLFlux :=
  compute_hll_flux_y
    (fl.rho i j + 0.5 * slope_y fl.ny fl.rho i j)
    (fl.u i j + 0.5 * slope_y fl.ny fl.u i j)
    (fl.v i j + 0.5 * slope_y fl.ny fl.v i j)
    (fl.p i j + 0.5 * slope_y fl.ny fl.p i j)
    (fl.Bx i j + 0.5 * slope_y fl.ny fl.Bx i j)
    (fl.By i j + 0.5 * slope_y fl.ny fl.By i j)
    (fl.psi i j + 0.5 * slope_y fl.ny fl.psi i j)
    (fl.rho i (j + 1) - 0.5 * slope_y fl.ny fl.rho i (j + 1))
    (fl.u i (j + 1) - 0.5 * slope_y fl.ny fl.u i (j + 1))
    (fl.v i (j + 1) - 0.5 * slope_y fl.ny fl.v i (j + 1))
    (fl.p i (j + 1) - 0.5 * slope_y fl.ny fl.p i (j + 1))
    (fl.Bx i (j + 1) - 0.5 * slope_y fl.ny fl.Bx i (j + 1))
    (fl.By i (j + 1) - 0.5 * slope_y fl.ny fl.By i (j + 1))
    (fl.psi i (j + 1) - 0.5 * slope_y fl.ny fl.psi i (j + 1))

/-- Interior-cell predicate: the update loops run over
`1 ≤ i ≤ nx-2`, `1 ≤ j ≤ ny-2`. -/
def interior (fl : FlowState) (i j : ℕ) : Prop :=
  (1 ≤ i ∧ i < fl.nx - 1) ∧ (1 ≤ j ∧ j < fl.ny - 1)

instance (fl : FlowState) (i j : ℕ) : Decidable (interior fl i j) := by
  unfold interior; infer_instance

/-- Per-cell candidate timestep of the CFL scan (solver.cpp lines 170-182). -/
def cell_dt (fl : FlowState) (i j : ℕ) : ℝ :=
  let cf := compute_fast_speed (fl.rho i j) (fl.p i j) (fl.Bx i j) (fl.By i j)
  min (fl.dx / (|fl.u i j| + cf)) (fl.dy / (|fl.v i j| + cf))

/-- The interior index set scanned by the CFL loop and the update loops. -/
def interiorSet (fl : FlowState) : Finset (ℕ × ℕ) :=
  Finset.Ico 1 (fl.nx - 1) ×ˢ Finset.Ico 1 (fl.ny - 1)

/-- Dynamic CFL timestep, `compute_cfl_timestep` (solver.cpp lines 163-190):
a `min`-reduction over interior cells starting from `1e10`, a GLM bound
`min(dx,dy)/CH`, a guard replacing the physical minimum by the GLM bound when
it exceeds `1.0`, and the final `cfl_number * min(...)`.  The source's default
argument is `cfl_number = 0.2` (solver.hpp line 5). -/
def compute_cfl_timestep (fl : FlowState) (cfl_number : ℝ) : ℝ :=
  let dt_min := (interiorSet fl).fold min 1e10 fun q => cell_dt fl q.1 q.2
  let dt_glm := min fl.dx fl.dy / CH
  let dtm := if dt_min > 1 then min fl.dx fl.dy / CH else dt_min
  cfl_number * min dtm dt_glm

/-- Default value of the `cfl_number` parameter (solver.hpp line 5); the call
inside `update_level` (solver.cpp line 222) uses it. -/
def cfl_number_default : ℝ := 0.2

/-- Flux part of the density update for an interior cell
(solver.cpp lines 402-403), before the positivity floor. -/
def rho_upd (fl : FlowState) (dt : ℝ) (i j : ℕ) : ℝ :=
  fl.rho i j - dt / fl.dx * ((fluxX fl i j).F_rho - (fluxX fl (i - 1) j).F_rho)
    - dt / fl.dy * ((fluxY fl i j).F_rho - (fluxY fl i (j - 1)).F_rho)

/-- Content of the `rho_new` scratch array after the interior loop: interior
cells are flux-updated and floored at `1e-10` (line 444); every other entry
keeps its initial copy of the old density (line 226). -/
def rho_new (fl : FlowState) (dt : ℝ) (i j : ℕ) : ℝ :=
  if interior fl i j then max (rho_upd fl dt i j) 1e-10 else fl.rho i j

/-- Energy update of an interior cell including the insufficient-total-energy
clamp (solver.cpp lines 411-418).  Note the clamp's `ke_temp` uses the freshly
flux-updated (pre-floor) density with the old velocities, and `me_temp` reads
`bx_new[i][j]`, `by_new[i][j]` before those entries are assigned (lines
420-424), i.e. the old magnetic field. -/
def e_upd (fl : FlowState) (dt : ℝ) (i j : ℕ) : ℝ :=
  let e1 := fl.e i j - dt / fl.dx * ((fluxX fl i j).F_E - (fluxX fl (i - 1) j).F_E)
    - dt / fl.dy * ((fluxY fl i j).F_E - (fluxY fl i (j - 1)).F_E)
  let ke_temp := 0.5 * rho_upd fl dt i j * (fl.u i j * fl.u i j + fl.v i j * fl.v i j)
  let me_temp := 0.5 * (fl.Bx i j * fl.Bx i j + fl.By i j * fl.By i j)
  if e1 < ke_temp + me_temp + 1e-10 then ke_temp + me_temp + 1e-10 else e1

/-- Content of the `e_new` scratch array after the interior loop (floored at
`1e-10`, line 445); non-interior entries keep the old energy (line 229). -/
def e_new (fl : FlowState) (dt : ℝ) (i j : ℕ) : ℝ :=
  if interior fl i j then max (e_upd fl dt i j) 1e-10 else fl.e i j

/-- Flux-difference part of the Bx update of an interior cell
(solver.cpp lines 420-421), before the magnetic-diffusion term. -/
def bx_flux_only (fl : FlowState) (dt : ℝ) (i j : ℕ) : ℝ :=
  fl.Bx i j - dt / fl.dx * ((fluxX fl i j).F_Bx - (fluxX fl (i - 1) j).F_Bx)
    - dt / fl.dy * ((fluxY fl i j).F_Bx - (fluxY fl i (j - 1)).F_Bx)

/-- Bx update of an interior cell: flux part (lines 420-421) plus the magnetic
diffusion term guarded by `ETA > 0` (lines 436-438). -/
def bx_upd (fl : FlowState) (dt : ℝ) (i j : ℕ) : ℝ :=
  bx_flux_only fl dt i j
    + (if ETA > 0 then dt * ETA * laplacian fl.dx fl.dy fl.Bx i j else 0)

/-- Content of the `bx_new` scratch array after the interior loop;
non-interior entries keep the old `Bx` (line 230). -/
def bx_new (fl : FlowState) (dt : ℝ) (i j : ℕ) : ℝ :=
  if interior fl i j then bx_upd fl dt i j else fl.Bx i j

/-- Flux-difference part of the By update of an interior cell
(solver.cpp lines 423-424), before the magnetic-diffusion term. -/
def by_flux_only (fl : FlowState) (dt : ℝ) (i j : ℕ) : ℝ :=
  fl.By i j - dt / fl.dx * ((fluxX fl i j).F_By - (fluxX fl (i - 1) j).F_By)
    - dt / fl.dy * ((fluxY fl i j).F_By - (fluxY fl i (j - 1)).F_By)

/-- By update of an interior cell (lines 423-424 and 436-439). -/
def by_upd (fl : FlowState) (dt : ℝ) (i j : ℕ) : ℝ :=
  by_flux_only fl dt i j
    + (if ETA > 0 then dt * ETA * laplacian fl.dx fl.dy fl.By i j else 0)

/-- Content of the `by_new` scratch array after the interior loop. -/
def by_new (fl : FlowState) (dt : ℝ) (i j : ℕ) : ℝ :=
  if interior fl i j then by_upd fl dt i j else fl.By i j

/-- Psi update of an interior cell, flux part only (lines 426-427);
the GLM source term is applied later over the whole grid. -/
def psi_upd (fl : FlowState) (dt : ℝ) (i j : ℕ) : ℝ :=
  fl.psi i j - dt / fl.dx * ((fluxX fl i j).F_psi - (fluxX fl (i - 1) j).F_psi)
    - dt / fl.dy * ((fluxY fl i j).F_psi - (fluxY fl i (j - 1)).F_psi)

/-- Content of the `psi_new` scratch array after the interior loop;
non-interior entries keep the old `psi` (line 232). -/
def psi_new (fl : FlowState) (dt : ℝ) (i j : ℕ) : ℝ :=
  if interior fl i j then psi_upd fl dt i j else fl.psi i j

/-- x-momentum update of an interior cell: `rho*u` seeded at lines 302-308,
flux difference (lines 405-406), viscosity term guarded by `nu > 0`
(lines 430-432). -/
def momx_upd (fl : FlowState) (dt nu : ℝ) (i j : ℕ) : ℝ :=
  fl.rho i j * fl.u i j
    - dt / fl.dx * ((fluxX fl i j).F_momx - (fluxX fl (i - 1) j).F_momx)
    - dt / fl.dy * ((fluxY fl i j).F_momx - (fluxY fl i (j - 1)).F_momx)
    + (if nu > 0 then dt * nu * fl.rho i j * laplacian fl.dx fl.dy fl.u i j else 0)

/-- Content of the `momx_new` scratch array after the interior loop;
non-interior entries keep the seeded `rho*u` (lines 302-308). -/
def momx_new (fl : FlowState) (dt nu : ℝ) (i j : ℕ) : ℝ :=
  if interior fl i j then momx_upd fl dt nu i j else fl.rho i j * fl.u i j

/-- y-momentum update of an interior cell (lines 408-409 and 430-433). -/
def momy_upd (fl : FlowState) (dt nu : ℝ) (i j : ℕ) : ℝ :=
  fl.rho i j * fl.v i j
    - dt / fl.dx * ((fluxX fl i j).F_momy - (fluxX fl (i - 1) j).F_momy)
    - dt / fl.dy * ((fluxY fl i j).F_momy - (fluxY fl i (j - 1)).F_momy)
    + (if nu > 0 then dt * nu * fl.rho i j * laplacian fl.dx fl.dy fl.v i j else 0)

/-- Content of the `momy_new` scratch array after the interior loop. -/
def momy_new (fl : FlowState) (dt nu : ℝ) (i j : ℕ) : ℝ :=
  if interior fl i j then momy_upd fl dt nu i j else fl.rho i j * fl.v i j

/-- The primitive-variable commit loop (solver.cpp lines 450-469): interior
cells receive the new conserved values, recovered velocities and pressure;
boundary cells keep their old values.  `psi` is NOT committed here — the
source only writes `flow.psi` in the final GLM loop. -/
def committed (fl : FlowState) (dt nu : ℝ) : FlowState :=
  { fl with
    rho := rho_new fl dt
    u := fun i j =>
      if interior fl i j then momx_new fl dt nu i j / rho_new fl dt i j else fl.u i j
    v := fun i j =>
      if interior fl i j then momy_new fl dt nu i j / rho_new fl dt i j else fl.v i j
    Bx := bx_new fl dt
    By := by_new fl dt
    e := e_new fl dt
    p := fun i j =>
      if interior fl i j then
        let unew := momx_new fl dt nu i j / rho_new fl dt i j
        let vnew := momy_new fl dt nu i j / rho_new fl dt i j
        let ke := 0.5 * rho_new fl dt i j * (unew * unew + vnew * vnew)
        let me := 0.5 * (bx_new fl dt i j * bx_new fl dt i j
          + by_new fl dt i j * by_new fl dt i j)
        (gamma_gas - 1) * max (e_new fl dt i j - ke - me) 1e-10
      else fl.p i j }

/-- x-direction periodic wrap (solver.cpp lines 472-493): column `0` receives
column `nx-2`, column `nx-1` receives column `1`. -/
def wrap_x (nx : ℕ) (f : ℕ → ℕ → ℝ) (i j : ℕ) : ℝ :=
  if i = 0 then f (nx - 2) j else if i = nx - 1 then f 1 j else f i j

/-- y-direction periodic wrap (solver.cpp lines 495-516): row `0` receives
row `ny-2`, row `ny-1` receives row `1`; it runs after the x wrap and reads
the x-wrapped values. -/
def wrap_y (ny : ℕ) (f : ℕ → ℕ → ℝ) (i j : ℕ) : ℝ :=
  if j = 0 then f i (ny - 2) else if j = ny - 1 then f i 1 else f i j

/-- Both periodic wraps applied to all eight fields (solver.cpp
lines 472-516). -/
def wrapBC (fl : FlowState) : FlowState :=
  { fl with
    rho := wrap_y fl.ny (wrap_x fl.nx fl.rho)
    u := wrap_y fl.ny (wrap_x fl.nx fl.u)
    v := wrap_y fl.ny (wrap_x fl.nx fl.v)
    p := wrap_y fl.ny (wrap_x fl.nx fl.p)
    e := wrap_y fl.ny (wrap_x fl.nx fl.e)
    Bx := wrap_y fl.ny (wrap_x fl.nx fl.Bx)
    By := wrap_y fl.ny (wrap_x fl.nx fl.By)
    psi := wrap_y fl.ny (wrap_x fl.nx fl.psi) }

/-- Centered divergence used by the GLM loop (solver.cpp lines 522-525):
it reads the `bx_new`, `by_new` SCRATCH arrays (whose boundary entries still
hold the pre-step field) with modulo-wrapped indices. -/
def divB_new (fl : FlowState) (dt : ℝ) (i j : ℕ) : ℝ :=
  (bx_new fl dt ((i + 1) % fl.nx) j - bx_new fl dt ((i + fl.nx - 1) % fl.nx) j)
      / (2 * fl.dx)
    + (by_new fl dt i ((j + 1) % fl.ny) - by_new fl dt i ((j + fl.ny - 1) % fl.ny))
      / (2 * fl.dy)

/-- GLM divergence-cleaning value written into `flow.psi` over the whole grid
(solver.cpp lines 518-529), with the damping coefficient as a parameter; the
source fixes it to `CR`. -/
def glm_psi (cr : ℝ) (fl : FlowState) (dt : ℝ) (i j : ℕ) : ℝ :=
  psi_new fl dt i j - dt * CH * CH * divB_new fl dt i j - dt * cr * psi_new fl dt i j

/-- One step of `update_level` (solver.cpp lines 218-530), with the GLM
damping coefficient `cr` as a parameter (the source hardwires `cr = CR`;
the parameter only enters the final `psi` write and lets the `c_r = 0`
configuration demanded by the spec's conservation statement be expressed).
The caller-supplied `dt` is clamped to the dynamic CFL timestep first
(lines 222-223). -/
def update_level_cr (cr : ℝ) (fl : FlowState) (dt nu : ℝ) : FlowState :=
  let dtE := min dt (compute_cfl_timestep fl cfl_number_default)
  let c := wrapBC (committed fl dtE nu)
  { c with psi := fun i j => glm_psi cr fl dtE i j }

/-- `update_level` exactly as in the source (GLM damping `CR`). -/
def update_level (fl : FlowState) (dt nu : ℝ) : FlowState :=
  update_level_cr CR fl dt nu

/-- `solve_MHD` (solver.cpp lines 532-534): the public entry point; it is
`void` in the source and mutates `flow` in place, so its embedding returns
only the updated state. -/
def solve_MHD (fl : FlowState) (dt nu : ℝ) : FlowState :=
  update_level fl dt nu

/-- Construction-faithful `Grid` (grid.hpp lines 11-20): dimensions are C++
`int`s, the storage is an explicit `nx`-by-`ny` nested list. -/
structure Grid where
  nx : ℤ
  ny : ℤ
  dx : ℝ
  dy : ℝ
  x0 : ℝ
  y0 : ℝ
  data : List (List ℝ)

/-- `Grid::Grid` (grid.cpp lines 6-12): allocates `nx` rows of `ny` zeros and
throws `std::invalid_argument` when `nx < 3 || ny < 3`. -/
def Grid.construct (nx ny : ℤ) (dx dy x0 y0 : ℝ) : Except String Grid :=
  if nx < 3 ∨ ny < 3 then Except.error "Grid size must be at least 3x3"
  else Except.ok
    { nx := nx, ny := ny, dx := dx, dy := dy, x0 := x0, y0 := y0
      data := List.replicate nx.toNat (List.replicate ny.toNat 0) }

/-- Construction-faithful `FlowField` (grid.hpp lines 23-28): eight grids. -/
structure FlowFieldG where
  rho : Grid
  u : Grid
  v : Grid
  p : Grid
  e : Grid
  Bx : Grid
  By : Grid
  psi : Grid

/-- `FlowField::FlowField` (grid.cpp lines 22-29): constructs the eight member
grids (each of which throws when `nx < 3 || ny < 3`), then performs its own
`nx < 3 || ny < 3` check. -/
def FlowFieldG.construct (nx ny : ℤ) (dx dy x0 y0 : ℝ) : Except String FlowFieldG := do
  let r ← Grid.construct nx ny dx dy x0 y0
  let gu ← Grid.construct nx ny dx dy x0 y0
  let gv ← Grid.construct nx ny dx dy x0 y0
  let gp ← Grid.construct nx ny dx dy x0 y0
  let ge ← Grid.construct nx ny dx dy x0 y0
  let gbx ← Grid.construct nx ny dx dy x0 y0
  let gby ← Grid.construct nx ny dx dy x0 y0
  let gpsi ← Grid.construct nx ny dx dy x0 y0
  if nx < 3 ∨ ny < 3 then Except.error "FlowField grid must be at least 3x3"
  else Except.ok (FlowFieldG.mk r gu gv gp ge gbx gby gpsi)

/-- Physical CFL minimum as the spec words it: the minimum over all interior
cells of the per-cell candidate `min(dx/(|u|+c_f), dy/(|v|+c_f))`. -/
def physical_min (fl : FlowState) : ℝ :=
  sInf ((fun q : ℕ × ℕ => cell_dt fl q.1 q.2) '' (interiorSet fl : Set (ℕ × ℕ)))

/-- A reference uniform 3x3 state (`rho = 1`, `p = 3/5`, consistent energy,
everything else zero) used to instantiate the general theorems; its fast
speed is exactly `1`. -/
def exA : FlowState where
  nx := 3
  ny := 3
  dx := 1
  dy := 1
  x0 := 0
  y0 := 0
  rho := fun _ _ => 1
  u := fun _ _ => 0
  v := fun _ _ => 0
  p := fun _ _ => 3 / 5
  e := fun _ _ => 9 / 10
  Bx := fun _ _ => 0
  By := fun _ _ => 0
  psi := fun _ _ => 0

end

/-- A `min`-fold starting from `b` over a nonempty finset is `min b` of the
pointwise infimum. -/
theorem fold_min_eq_min_inf' {α : Type} (f : α → ℝ) (b : ℝ) (s : Finset α)
    (hs : s.Nonempty) : s.fold min b f = min b (s.inf' hs f) := by
  induction s using Finset.cons_induction with
  | empty => exact absurd hs (by simp)
  | cons a t ha ih =>
    rcases t.eq_empty_or_nonempty with h | h
    · subst h
      simp [Finset.fold_cons, min_comm]
    · rw [Finset.fold_cons, ih h, Finset.inf'_cons h, min_left_comm]

/-- The reference state has at least one interior cell. -/
theorem exA_interior_nonempty : (interiorSet exA).Nonempty :=
  ⟨(1, 1), by decide⟩

/-- C6: `compute_cfl_timestep` returns `cfl_number` times the minimum of the
GLM bound `min(dx,dy)/CH` and the guarded physical minimum, where the
physical minimum over interior cells is replaced by the GLM bound whenever it
exceeds `1.0`; the source's default `cfl_number` is `0.2`. -/
theorem C6_cfl_timestep (fl : FlowState) (c : ℝ) (hne : (interiorSet fl).Nonempty) :
    compute_cfl_timestep fl c =
      c * min (if 1 < physical_min fl then min fl.dx fl.dy / CH else physical_min fl)
        (min fl.dx fl.dy / CH) ∧
    cfl_number_default = 0.2 := by
  refine ⟨?_, rfl⟩
  have hpm : physical_min fl = (interiorSet fl).inf' hne fun q => cell_dt fl q.1 q.2 := by
    rw [physical_min, Finset.inf'_eq_csInf_image]
  unfold compute_cfl_timestep
  rw [fold_min_eq_min_inf' _ _ _ hne, ← hpm]
  rcases le_or_lt (physical_min fl) 1e10 with hle | hgt
  · simp only [min_eq_right hle]
  · have h110 : (1 : ℝ) < 1e10 := by norm_num
    have h1pm : (1 : ℝ) < physical_min fl := h110.trans hgt
    simp only [min_eq_left hgt.le, gt_iff_lt, if_pos h110, if_pos h1pm]

/-- C6 witness: the theorem instantiated at the concrete reference state. -/
theorem C6_cfl_timestep_witness :
    (interiorSet exA).Nonempty ∧
      (compute_cfl_timestep exA 1 =
        1 * min (if 1 < physical_min exA then min exA.dx exA.dy / CH else physical_min exA)
          (min exA.dx exA.dy / CH) ∧
      cfl_number_default = 0.2) :=
  ⟨exA_interior_nonempty, C6_cfl_timestep exA 1 exA_interior_nonempty⟩

/-- C2 (supporting evaluation): the state `solve_MHD` produces depends on the
caller's `dt` only through `min(dt, compute_cfl_timestep(flow, 0.2))` — the
internal clamp of solver.cpp lines 222-223.  `solve_MHD` itself is `void`
(solver.hpp line 3): it returns no timestep to the caller. -/
theorem C2_clamped_dt (fl : FlowState) (dt nu : ℝ) :
    solve_MHD fl dt nu =
      solve_MHD fl (min dt (compute_cfl_timestep fl cfl_number_default)) nu := by
  simp only [solve_MHD, update_level, update_level_cr, min_assoc, min_self]

/-- A concrete successfully constructed 3x3 grid. -/
def gEx : Grid :=
  { nx := 3, ny := 3, dx := 1, dy := 1, x0 := 0, y0 := 0
    data := List.replicate 3 (List.replicate 3 0) }

/-- C9: constructing a `Grid` or a `FlowField` succeeds exactly when
`nx ≥ 3` and `ny ≥ 3` (otherwise the constructor throws), and a successful
construction carries a data array of exactly `nx` rows of `ny` cells. -/
theorem C9_construction (nx ny : ℤ) (dx dy x0 y0 : ℝ) :
    ((Grid.construct nx ny dx dy x0 y0).isOk = true ↔ ¬(nx < 3 ∨ ny < 3)) ∧
    ((FlowFieldG.construct nx ny dx dy x0 y0).isOk = true ↔ ¬(nx < 3 ∨ ny < 3)) ∧
    (∀ g, Grid.construct nx ny dx dy x0 y0 = Except.ok g →
      g.data.length = nx.toNat ∧ ∀ row ∈ g.data, row.length = ny.toNat) ∧
    (∀ F, FlowFieldG.construct nx ny dx dy x0 y0 = Except.ok F →
      F.rho.data.length = nx.toNat ∧ ∀ row ∈ F.rho.data, row.length = ny.toNat) := by
  by_cases h : nx < 3 ∨ ny < 3
  · refine ⟨?_, ?_, ?_, ?_⟩
    · simp [Grid.construct, h, Except.isOk, Except.toBool]
    · simp [FlowFieldG.construct, Grid.construct, h, Except.isOk, Except.toBool, Bind.bind, Except.bind]
    · intro g hg
      simp [Grid.construct, h] at hg
    · intro F hF
      simp [FlowFieldG.construct, Grid.construct, h, Bind.bind, Except.bind] at hF
  · refine ⟨?_, ?_, ?_, ?_⟩
    · simp [Grid.construct, h, Except.isOk, Except.toBool]
    · simp [FlowFieldG.construct, Grid.construct, h, Except.isOk, Except.toBool, Bind.bind, Except.bind]
    · intro g hg
      simp only [Grid.construct, if_neg h, Except.ok.injEq] at hg
      subst hg
      constructor
      · simp
      · intro row hrow
        rw [List.eq_of_mem_replicate hrow]
        simp
    · intro F hF
      simp only [FlowFieldG.construct, Grid.construct, if_neg h, Bind.bind, Except.bind,
        Except.ok.injEq] at hF
      subst hF
      constructor
      · simp
      · intro row hrow
        rw [List.eq_of_mem_replicate hrow]
        simp

/-- C9 witness: the concrete 3x3 construction succeeds with a 3x3 array. -/
theorem C9_construction_witness :
    Grid.construct 3 3 (1 : ℝ) 1 0 0 = Except.ok gEx ∧
      (gEx.data.length = (3 : ℤ).toNat ∧ ∀ row ∈ gEx.data, row.length = (3 : ℤ).toNat) := by
  have hmk : Grid.construct 3 3 (1 : ℝ) 1 0 0 = Except.ok gEx := by
    simp [Grid.construct, gEx]
  exact ⟨hmk, (C9_construction 3 3 1 1 0 0).2.2.1 gEx hmk⟩

noncomputable section

/-- Pure physical x-flux of one primitive state as the spec's left/right
branches describe it: total pressure `p + |B|^2/2`, total energy
`p/(γ-1) + ρ|v|^2/2 + |B|^2/2`, the normal-B flux carries `ψ` and the `ψ`
flux carries `c_h^2 · B_normal`. -/
def phys_flux_x (rho u v p Bx By psi : ℝ) : HLLFlux :=
  { F_rho := rho * u
    F_momx := rho * u * u + (p + 0.5 * (Bx * Bx + By * By)) - Bx * Bx
    F_momy := rho * u * v - Bx * By
    F_E := (p / (gamma_gas - 1) + 0.5 * rho * (u * u + v * v)
        + 0.5 * (Bx * Bx + By * By) + (p + 0.5 * (Bx * Bx + By * By))) * u
      - Bx * (u * Bx + v * By)
    F_Bx := psi
    F_By := u * By - v * Bx
    F_psi := CH * CH * Bx }

/-- Pure physical y-flux of one primitive state (normal component `v`,
normal magnetic component `By`). -/
def phys_flux_y (rho u v p Bx By psi : ℝ) : HLLFlux :=
  { F_rho := rho * v
    F_momx := rho * v * u - By * Bx
    F_momy := rho * v * v + (p + 0.5 * (Bx * Bx + By * By)) - By * By
    F_E := (p / (gamma_gas - 1) + 0.5 * rho * (u * u + v * v)
        + 0.5 * (Bx * Bx + By * By) + (p + 0.5 * (Bx * Bx + By * By))) * v
      - By * (u * Bx + v * By)
    F_Bx := v * Bx - u * By
    F_By := psi
    F_psi := CH * CH * By }

/-- Modelled from the spec: the x-flux exactly as the claim words it.  The
`S_L > 0` and `S_R < 0` branches are the pure one-sided physical fluxes; the
middle branch is the HLL average
`(S_R·F_L − S_L·F_R + S_L·S_R·(U_R − U_L)) / (S_R − S_L)` applied
component-wise to every component including `ψ`, where the physical fluxes of
the normal-B and ψ components carry the GLM coupling (`F(B_n) = ψ`,
`F(ψ) = c_h²·B_n`). -/
def hll_flux_x_claim (rhoL uL vL pL BxL ByL psiL rhoR uR vR pR BxR ByR psiR : ℝ) :
    HLLFlux :=
  let EL := pL / (gamma_gas - 1) + 0.5 * rhoL * (uL * uL + vL * vL)
    + 0.5 * (BxL * BxL + ByL * ByL)
  let ER := pR / (gamma_gas - 1) + 0.5 * rhoR * (uR * uR + vR * vR)
    + 0.5 * (BxR * BxR + ByR * ByR)
  let cfL := compute_fast_speed rhoL pL BxL ByL
  let cfR := compute_fast_speed rhoR pR BxR ByR
  let SL := min (uL - cfL) (uR - cfR)
  let SR := max (uL + cfL) (uR + cfR)
  let FL := phys_flux_x rhoL uL vL pL BxL ByL psiL
  let FR := phys_flux_x rhoR uR vR pR BxR ByR psiR
  if SL > 0 then FL
  else if SR < 0 then FR
  else
    { F_rho := (SR * FL.F_rho - SL * FR.F_rho + SL * SR * (rhoR - rhoL)) / (SR - SL)
      F_momx := (SR * FL.F_momx - SL * FR.F_momx
        + SL * SR * (rhoR * uR - rhoL * uL)) / (SR - SL)
      F_momy := (SR * FL.F_momy - SL * FR.F_momy
        + SL * SR * (rhoR * vR - rhoL * vL)) / (SR - SL)
      F_E := (SR * FL.F_E - SL * FR.F_E + SL * SR * (ER - EL)) / (SR - SL)
      F_Bx := (SR * FL.F_Bx - SL * FR.F_Bx + SL * SR * (BxR - BxL)) / (SR - SL)
      F_By := (SR * FL.F_By - SL * FR.F_By + SL * SR * (ByR - ByL)) / (SR - SL)
      F_psi := (SR * FL.F_psi - SL * FR.F_psi + SL * SR * (psiR - psiL)) / (SR - SL) }

/-- Amended spec-side x-flux: identical to `hll_flux_x_claim` except that the
middle-branch `ψ` component is `c_h²` times the HLL bracket of `B_normal`
against state `ψ` — i.e. the dissipation term `S_L·S_R·(ψ_R − ψ_L)` is ALSO
scaled by `c_h²`, as in the source (solver.cpp line 96). -/
def hll_flux_x_amended (rhoL uL vL pL BxL ByL psiL rhoR uR vR pR BxR ByR psiR : ℝ) :
    HLLFlux :=
  let EL := pL / (gamma_gas - 1) + 0.5 * rhoL * (uL * uL + vL * vL)
    + 0.5 * (BxL * BxL + ByL * ByL)
  let ER := pR / (gamma_gas - 1) + 0.5 * rhoR * (uR * uR + vR * vR)
    + 0.5 * (BxR * BxR + ByR * ByR)
  let cfL := compute_fast_speed rhoL pL BxL ByL
  let cfR := compute_fast_speed rhoR pR BxR ByR
  let SL := min (uL - cfL) (uR - cfR)
  let SR := max (uL + cfL) (uR + cfR)
  let FL := phys_flux_x rhoL uL vL pL BxL ByL psiL
  let FR := phys_flux_x rhoR uR vR pR BxR ByR psiR
  if SL > 0 then FL
  else if SR < 0 then FR
  else
    { F_rho := (SR * FL.F_rho - SL * FR.F_rho + SL * SR * (rhoR - rhoL)) / (SR - SL)
      F_momx := (SR * FL.F_momx - SL * FR.F_momx
        + SL * SR * (rhoR * uR - rhoL * uL)) / (SR - SL)
      F_momy := (SR * FL.F_momy - SL * FR.F_momy
        + SL * SR * (rhoR * vR - rhoL * vL)) / (SR - SL)
      F_E := (SR * FL.F_E - SL * FR.F_E + SL * SR * (ER - EL)) / (SR - SL)
      F_Bx := (SR * FL.F_Bx - SL * FR.F_Bx + SL * SR * (BxR - BxL)) / (SR - SL)
      F_By := (SR * FL.F_By - SL * FR.F_By + SL * SR * (ByR - ByL)) / (SR - SL)
      F_psi := CH * CH * (SR * BxL - SL * BxR + SL * SR * (psiR - psiL)) / (SR - SL) }

/-- Amended spec-side y-flux (same amendment as `hll_flux_x_amended`). -/
def hll_flux_y_amended (rhoL uL vL pL BxL ByL psiL rhoR uR vR pR BxR ByR psiR : ℝ) :
    HLLFlux :=
  let EL := pL / (gamma_gas - 1) + 0.5 * rhoL * (uL * uL + vL * vL)
    + 0.5 * (BxL * BxL + ByL * ByL)
  let ER := pR / (gamma_gas - 1) + 0.5 * rhoR * (uR * uR + vR * vR)
    + 0.5 * (BxR * BxR + ByR * ByR)
  let cfL := compute_fast_speed rhoL pL BxL ByL
  let cfR := compute_fast_speed rhoR pR BxR ByR
  let SL := min (vL - cfL) (vR - cfR)
  let SR := max (vL + cfL) (vR + cfR)
  let FL := phys_flux_y rhoL uL vL pL BxL ByL psiL
  let FR := phys_flux_y rhoR uR vR pR BxR ByR psiR
  if SL > 0 then FL
  else if SR < 0 then FR
  else
    { F_rho := (SR * FL.F_rho - SL * FR.F_rho + SL * SR * (rhoR - rhoL)) / (SR - SL)
      F_momx := (SR * FL.F_momx - SL * FR.F_momx
        + SL * SR * (rhoR * uR - rhoL * uL)) / (SR - SL)
      F_momy := (SR * FL.F_momy - SL * FR.F_momy
        + SL * SR * (rhoR * vR - rhoL * vL)) / (SR - SL)
      F_E := (SR * FL.F_E - SL * FR.F_E + SL * SR * (ER - EL)) / (SR - SL)
      F_Bx := (SR * FL.F_Bx - SL * FR.F_Bx + SL * SR * (BxR - BxL)) / (SR - SL)
      F_By := (SR * FL.F_By - SL * FR.F_By + SL * SR * (ByR - ByL)) / (SR - SL)
      F_psi := CH * CH * (SR * ByL - SL * ByR + SL * SR * (psiR - psiL)) / (SR - SL) }

end

/-- The fast speed of the reference primitive state `ρ = 1`, `p = 3/5`,
`B = 0` is exactly `1`. -/
theorem cf_ref : compute_fast_speed 1 (3 / 5) 0 0 = 1 := by
  unfold compute_fast_speed
  norm_num [gamma_gas, Real.sqrt_one]

/-- C7 (amended): for positive densities and pressures the HLL flux functions
agree with the spec-worded branches, with the middle-branch `ψ` component
read as `c_h²` times the whole HLL bracket. -/
theorem C7_hll_branches (rhoL uL vL pL BxL ByL psiL rhoR uR vR pR BxR ByR psiR : ℝ)
    (hrhoL : 0 < rhoL) (hpL : 0 < pL) (hrhoR : 0 < rhoR) (hpR : 0 < pR) :
    compute_hll_flux_x rhoL uL vL pL BxL ByL psiL rhoR uR vR pR BxR ByR psiR =
      hll_flux_x_amended rhoL uL vL pL BxL ByL psiL rhoR uR vR pR BxR ByR psiR ∧
    compute_hll_flux_y rhoL uL vL pL BxL ByL psiL rhoR uR vR pR BxR ByR psiR =
      hll_flux_y_amended rhoL uL vL pL BxL ByL psiL rhoR uR vR pR BxR ByR psiR := by
  exact ⟨rfl, rfl⟩

/-- C7 witness: the branch characterization at a concrete positive input. -/
theorem C7_hll_branches_witness :
    (0 : ℝ) < 1 ∧ (0 : ℝ) < 3 / 5 ∧
      (compute_hll_flux_x 1 0 0 (3 / 5) 0 0 0 1 0 0 (3 / 5) 0 0 1 =
        hll_flux_x_amended 1 0 0 (3 / 5) 0 0 0 1 0 0 (3 / 5) 0 0 1 ∧
      compute_hll_flux_y 1 0 0 (3 / 5) 0 0 0 1 0 0 (3 / 5) 0 0 1 =
        hll_flux_y_amended 1 0 0 (3 / 5) 0 0 0 1 0 0 (3 / 5) 0 0 1) :=
  ⟨by norm_num, by norm_num,
    C7_hll_branches 1 0 0 (3 / 5) 0 0 0 1 0 0 (3 / 5) 0 0 1
      (by norm_num) (by norm_num) (by norm_num) (by norm_num)⟩

/-- C7 counterexample: at `ρ = 1`, `p = 3/5`, `B = 0`, `u = 0`, `ψ_L = 0`,
`ψ_R = 1` the code's middle-branch `ψ` flux is `−8/25` while the claim's
component-wise HLL average gives `−1/2`: the code scales the
`S_L·S_R·(ψ_R−ψ_L)` term by `c_h²` as well. -/
theorem C7_counterexample :
    (compute_hll_flux_x 1 0 0 (3 / 5) 0 0 0 1 0 0 (3 / 5) 0 0 1).F_psi ≠
      (hll_flux_x_claim 1 0 0 (3 / 5) 0 0 0 1 0 0 (3 / 5) 0 0 1).F_psi := by
  unfold compute_hll_flux_x hll_flux_x_claim phys_flux_x
  rw [cf_ref]
  norm_num [CH]

/-- Effective timestep used inside one `update_level` call (solver.cpp
lines 222-223). -/
noncomputable def dt_eff (fl : FlowState) (dt : ℝ) : ℝ :=
  min dt (compute_cfl_timestep fl cfl_number_default)

theorem solve_MHD_rho (fl : FlowState) (dt nu : ℝ) :
    (solve_MHD fl dt nu).rho = wrap_y fl.ny (wrap_x fl.nx (rho_new fl (dt_eff fl dt))) := rfl

theorem solve_MHD_e (fl : FlowState) (dt nu : ℝ) :
    (solve_MHD fl dt nu).e = wrap_y fl.ny (wrap_x fl.nx (e_new fl (dt_eff fl dt))) := rfl

theorem solve_MHD_Bx (fl : FlowState) (dt nu : ℝ) :
    (solve_MHD fl dt nu).Bx = wrap_y fl.ny (wrap_x fl.nx (bx_new fl (dt_eff fl dt))) := rfl

theorem solve_MHD_By (fl : FlowState) (dt nu : ℝ) :
    (solve_MHD fl dt nu).By = wrap_y fl.ny (wrap_x fl.nx (by_new fl (dt_eff fl dt))) := rfl

theorem solve_MHD_psi (fl : FlowState) (dt nu : ℝ) :
    (solve_MHD fl dt nu).psi = fun i j => glm_psi CR fl (dt_eff fl dt) i j := rfl

/-- Every cell of a doubly-wrapped field is one of its interior values,
hence inherits any per-interior-cell lower bound. -/
theorem wrapped_ge (fl : FlowState) (g : ℕ → ℕ → ℝ) (c : ℝ)
    (h3x : 3 ≤ fl.nx) (h3y : 3 ≤ fl.ny)
    (hg : ∀ i j, interior fl i j → c ≤ g i j)
    (i j : ℕ) (hi : i < fl.nx) (hj : j < fl.ny) :
    c ≤ wrap_y fl.ny (wrap_x fl.nx g) i j := by
  unfold wrap_y wrap_x
  split_ifs <;>
    exact hg _ _ ⟨⟨by omega, by omega⟩, ⟨by omega, by omega⟩⟩

/-- C5: after one `solve_MHD` call every cell of the grid — boundary cells
included — carries density and total energy at least the positivity floor
`1e-10`, for every input state and every `dt` and viscosity. -/
theorem C5_floors (fl : FlowState) (dt nu : ℝ) (h3x : 3 ≤ fl.nx) (h3y : 3 ≤ fl.ny)
    (i j : ℕ) (hi : i < fl.nx) (hj : j < fl.ny) :
    1e-10 ≤ (solve_MHD fl dt nu).rho i j ∧ 1e-10 ≤ (solve_MHD fl dt nu).e i j := by
  constructor
  · rw [solve_MHD_rho]
    refine wrapped_ge fl _ _ h3x h3y ?_ i j hi hj
    intro i' j' hin
    unfold rho_new
    rw [if_pos hin]
    exact le_max_right _ _
  · rw [solve_MHD_e]
    refine wrapped_ge fl _ _ h3x h3y ?_ i j hi hj
    intro i' j' hin
    unfold e_new
    rw [if_pos hin]
    exact le_max_right _ _

/-- C5 witness: the floor bound at a corner cell of the reference state. -/
theorem C5_floors_witness :
    1e-10 ≤ (solve_MHD exA 1 0).rho 0 0 ∧ 1e-10 ≤ (solve_MHD exA 1 0).e 0 0 :=
  C5_floors exA 1 0 (by decide) (by decide) 0 0 (by decide) (by decide)

/-- A doubly-wrapped field is untouched at interior cells. -/
theorem wrap_interior_eq (fl : FlowState) (g : ℕ → ℕ → ℝ) (i j : ℕ)
    (hij : interior fl i j) :
    wrap_y fl.ny (wrap_x fl.nx g) i j = g i j := by
  obtain ⟨⟨hi1, hi2⟩, hj1, hj2⟩ := hij
  unfold wrap_y wrap_x
  rw [if_neg (by omega), if_neg (by omega), if_neg (by omega), if_neg (by omega)]

/-- C10: the magnetic diffusion with fixed diffusivity `0.001` is added to
the Bx and By update of every interior cell on every call — its `ETA > 0`
guard always holds — and the resulting magnetic field does not depend on the
caller-supplied viscosity, so no public parameter can disable it. -/
theorem C10_magnetic_diffusion (fl : FlowState) (dt nu : ℝ) (i j : ℕ)
    (hij : interior fl i j) :
    ((solve_MHD fl dt nu).Bx i j =
        bx_flux_only fl (dt_eff fl dt) i j
          + dt_eff fl dt * 0.001 * laplacian fl.dx fl.dy fl.Bx i j ∧
      (solve_MHD fl dt nu).By i j =
        by_flux_only fl (dt_eff fl dt) i j
          + dt_eff fl dt * 0.001 * laplacian fl.dx fl.dy fl.By i j) ∧
    ∀ nu' : ℝ, (solve_MHD fl dt nu').Bx i j = (solve_MHD fl dt nu).Bx i j ∧
      (solve_MHD fl dt nu').By i j = (solve_MHD fl dt nu).By i j := by
  refine ⟨⟨?_, ?_⟩, fun nu' => ⟨rfl, rfl⟩⟩
  · rw [solve_MHD_Bx, wrap_interior_eq fl _ i j hij]
    unfold bx_new
    rw [if_pos hij]
    unfold bx_upd
    rw [if_pos (by norm_num [ETA] : ETA > 0)]
    norm_num [ETA]
  · rw [solve_MHD_By, wrap_interior_eq fl _ i j hij]
    unfold by_new
    rw [if_pos hij]
    unfold by_upd
    rw [if_pos (by norm_num [ETA] : ETA > 0)]
    norm_num [ETA]

/-- C10 witness: the diffusion term at the single interior cell of the
reference state. -/
theorem C10_magnetic_diffusion_witness :
    ((solve_MHD exA 1 0).Bx 1 1 =
        bx_flux_only exA (dt_eff exA 1) 1 1
          + dt_eff exA 1 * 0.001 * laplacian exA.dx exA.dy exA.Bx 1 1 ∧
      (solve_MHD exA 1 0).By 1 1 =
        by_flux_only exA (dt_eff exA 1) 1 1
          + dt_eff exA 1 * 0.001 * laplacian exA.dx exA.dy exA.By 1 1) ∧
    ∀ nu' : ℝ, (solve_MHD exA 1 nu').Bx 1 1 = (solve_MHD exA 1 0).Bx 1 1 ∧
      (solve_MHD exA 1 nu').By 1 1 = (solve_MHD exA 1 0).By 1 1 :=
  C10_magnetic_diffusion exA 1 0 1 1 (by decide)

/-- The first periodicity relation of the spec for one field. -/
def xMirror (nx : ℕ) (f : ℕ → ℕ → ℝ) : Prop :=
  ∀ j, f 0 j = f (nx - 2) j ∧ f (nx - 1) j = f 1 j

/-- The second periodicity relation of the spec for one field. -/
def yMirror (ny : ℕ) (f : ℕ → ℕ → ℝ) : Prop :=
  ∀ i, f i 0 = f i (ny - 2) ∧ f i (ny - 1) = f i 1

/-- Both periodic wraps in sequence leave a field satisfying all four mirror
relations. -/
theorem wrap_mirror (nx ny : ℕ) (h3x : 3 ≤ nx) (h3y : 3 ≤ ny) (f : ℕ → ℕ → ℝ) :
    xMirror nx (wrap_y ny (wrap_x nx f)) ∧ yMirror ny (wrap_y ny (wrap_x nx f)) := by
  have hx0 : nx - 2 ≠ 0 := by omega
  have hx1 : nx - 2 ≠ nx - 1 := by omega
  have hx2 : (1 : ℕ) ≠ nx - 1 := by omega
  have hy0 : ny - 2 ≠ 0 := by omega
  have hy1 : ny - 2 ≠ ny - 1 := by omega
  have hy2 : (1 : ℕ) ≠ ny - 1 := by omega
  have hnx : nx - 1 ≠ 0 := by omega
  have hny : ny - 1 ≠ 0 := by omega
  constructor
  · intro j
    by_cases hj0 : j = 0
    · subst hj0
      simp [wrap_y, wrap_x, hx0, hx1, hx2, hy0, hy1, hnx, hny]
    · by_cases hjn : j = ny - 1
      · subst hjn
        simp [wrap_y, wrap_x, hx0, hx1, hx2, hnx, hny, hy2]
      · simp [wrap_y, wrap_x, hj0, hjn, hx0, hx1, hx2, hnx, hny]
  · intro i
    by_cases hi0 : i = 0
    · subst hi0
      simp [wrap_y, wrap_x, hy0, hy1, hy2, hnx, hny]
    · by_cases hin : i = nx - 1
      · subst hin
        simp [wrap_y, wrap_x, hy0, hy1, hy2, hnx, hny]
      · simp [wrap_y, wrap_x, hy0, hy1, hy2, hi0, hin, hnx, hny]

/-- C3 (amended): after `solve_MHD` the fields `rho, u, v, p, bx, by` satisfy
all four periodic mirror relations; `psi` is excluded — the final GLM loop
overwrites the wrapped `psi` from the unwrapped scratch array. -/
theorem C3_periodicity (fl : FlowState) (dt nu : ℝ)
    (h3x : 3 ≤ fl.nx) (h3y : 3 ≤ fl.ny) :
    (xMirror fl.nx (solve_MHD fl dt nu).rho ∧ yMirror fl.ny (solve_MHD fl dt nu).rho) ∧
    (xMirror fl.nx (solve_MHD fl dt nu).u ∧ yMirror fl.ny (solve_MHD fl dt nu).u) ∧
    (xMirror fl.nx (solve_MHD fl dt nu).v ∧ yMirror fl.ny (solve_MHD fl dt nu).v) ∧
    (xMirror fl.nx (solve_MHD fl dt nu).p ∧ yMirror fl.ny (solve_MHD fl dt nu).p) ∧
    (xMirror fl.nx (solve_MHD fl dt nu).Bx ∧ yMirror fl.ny (solve_MHD fl dt nu).Bx) ∧
    (xMirror fl.nx (solve_MHD fl dt nu).By ∧ yMirror fl.ny (solve_MHD fl dt nu).By) :=
  ⟨wrap_mirror fl.nx fl.ny h3x h3y _, wrap_mirror fl.nx fl.ny h3x h3y _,
    wrap_mirror fl.nx fl.ny h3x h3y _, wrap_mirror fl.nx fl.ny h3x h3y _,
    wrap_mirror fl.nx fl.ny h3x h3y _, wrap_mirror fl.nx fl.ny h3x h3y _⟩

/-- C3 witness: the amended periodicity at the reference state. -/
theorem C3_periodicity_witness :
    (xMirror exA.nx (solve_MHD exA 1 0).rho ∧ yMirror exA.ny (solve_MHD exA 1 0).rho) ∧
    (xMirror exA.nx (solve_MHD exA 1 0).u ∧ yMirror exA.ny (solve_MHD exA 1 0).u) ∧
    (xMirror exA.nx (solve_MHD exA 1 0).v ∧ yMirror exA.ny (solve_MHD exA 1 0).v) ∧
    (xMirror exA.nx (solve_MHD exA 1 0).p ∧ yMirror exA.ny (solve_MHD exA 1 0).p) ∧
    (xMirror exA.nx (solve_MHD exA 1 0).Bx ∧ yMirror exA.ny (solve_MHD exA 1 0).Bx) ∧
    (xMirror exA.nx (solve_MHD exA 1 0).By ∧ yMirror exA.ny (solve_MHD exA 1 0).By) :=
  C3_periodicity exA 1 0 (by decide) (by decide)

/-- C4 (amended): the final `psi` at EVERY cell is the GLM formula applied to
the UNWRAPPED scratch arrays: `psi_new` (whose boundary entries hold the
pre-step `psi`) and the centered divergence of the unwrapped `bx_new`,
`by_new` with modulo-wrapped indices. -/
theorem C4_glm_unwrapped (fl : FlowState) (dt nu : ℝ) (i j : ℕ)
    (hi : i < fl.nx) (hj : j < fl.ny) :
    (solve_MHD fl dt nu).psi i j =
      psi_new fl (dt_eff fl dt) i j
        - dt_eff fl dt * CH * CH * divB_new fl (dt_eff fl dt) i j
        - dt_eff fl dt * CR * psi_new fl (dt_eff fl dt) i j := rfl

/-- C4 witness: the unwrapped-GLM characterization at a boundary cell of the
reference state. -/
theorem C4_glm_unwrapped_witness :
    (solve_MHD exA 1 0).psi 0 1 =
      psi_new exA (dt_eff exA 1) 0 1
        - dt_eff exA 1 * CH * CH * divB_new exA (dt_eff exA 1) 0 1
        - dt_eff exA 1 * CR * psi_new exA (dt_eff exA 1) 0 1 :=
  C4_glm_unwrapped exA 1 0 0 1 (by decide) (by decide)

/-- A spatially uniform trivial equilibrium: constant `ρ, p, Bx, By`, zero
velocities and `ψ`, and consistent total energy. -/
def IsUniform (fl : FlowState) (r pv bxv byv : ℝ) : Prop :=
  (∀ i j, fl.rho i j = r) ∧ (∀ i j, fl.u i j = 0) ∧ (∀ i j, fl.v i j = 0) ∧
  (∀ i j, fl.p i j = pv) ∧ (∀ i j, fl.Bx i j = bxv) ∧ (∀ i j, fl.By i j = byv) ∧
  (∀ i j, fl.psi i j = 0) ∧
  (∀ i j, fl.e i j = pv / (gamma_gas - 1) + (bxv * bxv + byv * byv) / 2)

theorem slope_x_of_const (nx : ℕ) (f : ℕ → ℕ → ℝ) (c : ℝ) (hf : ∀ i j, f i j = c)
    (i j : ℕ) : slope_x nx f i j = 0 := by
  simp [slope_x, minmod, hf]

theorem slope_y_of_const (ny : ℕ) (f : ℕ → ℕ → ℝ) (c : ℝ) (hf : ∀ i j, f i j = c)
    (i j : ℕ) : slope_y ny f i j = 0 := by
  simp [slope_y, minmod, hf]

theorem laplacian_of_const (dx dy : ℝ) (f : ℕ → ℕ → ℝ) (c : ℝ)
    (hf : ∀ i j, f i j = c) (i j : ℕ) : laplacian dx dy f i j = 0 := by
  simp only [laplacian, hf]
  ring

theorem fluxX_of_uniform {fl : FlowState} {r pv bxv byv : ℝ}
    (h : IsUniform fl r pv bxv byv) (i j : ℕ) :
    fluxX fl i j = compute_hll_flux_x r 0 0 pv bxv byv 0 r 0 0 pv bxv byv 0 := by
  obtain ⟨hr, hu, hv, hp, hbx, hby, hps, he⟩ := h
  unfold fluxX
  rw [slope_x_of_const _ _ _ hr, slope_x_of_const _ _ _ hu, slope_x_of_const _ _ _ hv,
    slope_x_of_const _ _ _ hp, slope_x_of_const _ _ _ hbx, slope_x_of_const _ _ _ hby,
    slope_x_of_const _ _ _ hps, slope_x_of_const _ _ _ hr, slope_x_of_const _ _ _ hu,
    slope_x_of_const _ _ _ hv, slope_x_of_const _ _ _ hp, slope_x_of_const _ _ _ hbx,
    slope_x_of_const _ _ _ hby, slope_x_of_const _ _ _ hps,
    hr, hu, hv, hp, hbx, hby, hps, hr, hu, hv, hp, hbx, hby, hps]
  norm_num

theorem fluxY_of_uniform {fl : FlowState} {r pv bxv byv : ℝ}
    (h : IsUniform fl r pv bxv byv) (i j : ℕ) :
    fluxY fl i j = compute_hll_flux_y r 0 0 pv bxv byv 0 r 0 0 pv bxv byv 0 := by
  obtain ⟨hr, hu, hv, hp, hbx, hby, hps, he⟩ := h
  unfold fluxY
  rw [slope_y_of_const _ _ _ hr, slope_y_of_const _ _ _ hu, slope_y_of_const _ _ _ hv,
    slope_y_of_const _ _ _ hp, slope_y_of_const _ _ _ hbx, slope_y_of_const _ _ _ hby,
    slope_y_of_const _ _ _ hps, slope_y_of_const _ _ _ hr, slope_y_of_const _ _ _ hu,
    slope_y_of_const _ _ _ hv, slope_y_of_const _ _ _ hp, slope_y_of_const _ _ _ hbx,
    slope_y_of_const _ _ _ hby, slope_y_of_const _ _ _ hps,
    hr, hu, hv, hp, hbx, hby, hps, hr, hu, hv, hp, hbx, hby, hps]
  norm_num

theorem rho_upd_of_uniform {fl : FlowState} {r pv bxv byv : ℝ}
    (h : IsUniform fl r pv bxv byv) (dt : ℝ) (i j : ℕ) :
    rho_upd fl dt i j = r := by
  unfold rho_upd
  rw [fluxX_of_uniform h, fluxX_of_uniform h, fluxY_of_uniform h, fluxY_of_uniform h,
    h.1 i j]
  ring

theorem e_upd_of_uniform {fl : FlowState} {r pv bxv byv : ℝ}
    (h : IsUniform fl r pv bxv byv) (hpv : (gamma_gas - 1) * 1e-10 ≤ pv)
    (dt : ℝ) (i j : ℕ) :
    e_upd fl dt i j = pv / (gamma_gas - 1) + (bxv * bxv + byv * byv) / 2 := by
  have hpq : (1e-10 : ℝ) ≤ pv / (gamma_gas - 1) := by
    rw [le_div_iff (by norm_num [gamma_gas] : (0 : ℝ) < gamma_gas - 1)]
    linarith [hpv]
  unfold e_upd
  rw [fluxX_of_uniform h, fluxX_of_uniform h, fluxY_of_uniform h, fluxY_of_uniform h,
    rho_upd_of_uniform h, h.2.1 i j, h.2.2.1 i j, h.2.2.2.2.1 i j, h.2.2.2.2.2.1 i j,
    h.2.2.2.2.2.2.2 i j]
  rw [if_neg (by nlinarith [hpq])]
  ring

theorem bx_new_of_uniform {fl : FlowState} {r pv bxv byv : ℝ}
    (h : IsUniform fl r pv bxv byv) (dt : ℝ) (i j : ℕ) :
    bx_new fl dt i j = bxv := by
  unfold bx_new bx_upd bx_flux_only
  rw [fluxX_of_uniform h, fluxX_of_uniform h, fluxY_of_uniform h, fluxY_of_uniform h,
    laplacian_of_const _ _ _ _ h.2.2.2.2.1, h.2.2.2.2.1 i j]
  split_ifs <;> ring

theorem by_new_of_uniform {fl : FlowState} {r pv bxv byv : ℝ}
    (h : IsUniform fl r pv bxv byv) (dt : ℝ) (i j : ℕ) :
    by_new fl dt i j = byv := by
  unfold by_new by_upd by_flux_only
  rw [fluxX_of_uniform h, fluxX_of_uniform h, fluxY_of_uniform h, fluxY_of_uniform h,
    laplacian_of_const _ _ _ _ h.2.2.2.2.2.1, h.2.2.2.2.2.1 i j]
  split_ifs <;> ring

theorem psi_new_of_uniform {fl : FlowState} {r pv bxv byv : ℝ}
    (h : IsUniform fl r pv bxv byv) (dt : ℝ) (i j : ℕ) :
    psi_new fl dt i j = 0 := by
  unfold psi_new psi_upd
  rw [fluxX_of_uniform h, fluxX_of_uniform h, fluxY_of_uniform h, fluxY_of_uniform h,
    h.2.2.2.2.2.2.1 i j]
  split_ifs <;> ring

theorem momx_new_of_uniform {fl : FlowState} {r pv bxv byv : ℝ}
    (h : IsUniform fl r pv bxv byv) (dt nu : ℝ) (i j : ℕ) :
    momx_new fl dt nu i j = 0 := by
  unfold momx_new momx_upd
  rw [fluxX_of_uniform h, fluxX_of_uniform h, fluxY_of_uniform h, fluxY_of_uniform h,
    laplacian_of_const _ _ _ _ h.2.1, h.1 i j, h.2.1 i j]
  split_ifs <;> ring

theorem momy_new_of_uniform {fl : FlowState} {r pv bxv byv : ℝ}
    (h : IsUniform fl r pv bxv byv) (dt nu : ℝ) (i j : ℕ) :
    momy_new fl dt nu i j = 0 := by
  unfold momy_new momy_upd
  rw [fluxX_of_uniform h, fluxX_of_uniform h, fluxY_of_uniform h, fluxY_of_uniform h,
    laplacian_of_const _ _ _ _ h.2.2.1, h.1 i j, h.2.2.1 i j]
  split_ifs <;> ring

theorem rho_new_of_uniform {fl : FlowState} {r pv bxv byv : ℝ}
    (h : IsUniform fl r pv bxv byv) (hr10 : 1e-10 ≤ r) (dt : ℝ) (i j : ℕ) :
    rho_new fl dt i j = r := by
  unfold rho_new
  rw [rho_upd_of_uniform h, max_eq_left hr10, h.1 i j]
  split_ifs <;> rfl

theorem e_new_of_uniform {fl : FlowState} {r pv bxv byv : ℝ}
    (h : IsUniform fl r pv bxv byv) (hpv : (gamma_gas - 1) * 1e-10 ≤ pv)
    (dt : ℝ) (i j : ℕ) :
    e_new fl dt i j = pv / (gamma_gas - 1) + (bxv * bxv + byv * byv) / 2 := by
  have hpq : (1e-10 : ℝ) ≤ pv / (gamma_gas - 1) := by
    rw [le_div_iff (by norm_num [gamma_gas] : (0 : ℝ) < gamma_gas - 1)]
    linarith [hpv]
  unfold e_new
  rw [e_upd_of_uniform h hpv,
    max_eq_left (by nlinarith [hpq, mul_self_nonneg bxv, mul_self_nonneg byv]),
    h.2.2.2.2.2.2.2 i j]
  split_ifs <;> rfl

theorem wrap_of_pointwise_const (nx ny : ℕ) (g : ℕ → ℕ → ℝ) (c : ℝ)
    (hg : ∀ i j, g i j = c) (i j : ℕ) :
    wrap_y ny (wrap_x nx g) i j = c := by
  simp [wrap_y, wrap_x, hg]

theorem solve_MHD_u (fl : FlowState) (dt nu : ℝ) :
    (solve_MHD fl dt nu).u = wrap_y fl.ny (wrap_x fl.nx fun i j =>
      if interior fl i j then
        momx_new fl (dt_eff fl dt) nu i j / rho_new fl (dt_eff fl dt) i j
      else fl.u i j) := rfl

theorem solve_MHD_v (fl : FlowState) (dt nu : ℝ) :
    (solve_MHD fl dt nu).v = wrap_y fl.ny (wrap_x fl.nx fun i j =>
      if interior fl i j then
        momy_new fl (dt_eff fl dt) nu i j / rho_new fl (dt_eff fl dt) i j
      else fl.v i j) := rfl

theorem solve_MHD_p (fl : FlowState) (dt nu : ℝ) :
    (solve_MHD fl dt nu).p = wrap_y fl.ny (wrap_x fl.nx fun i j =>
      if interior fl i j then
        let unew := momx_new fl (dt_eff fl dt) nu i j / rho_new fl (dt_eff fl dt) i j
        let vnew := momy_new fl (dt_eff fl dt) nu i j / rho_new fl (dt_eff fl dt) i j
        let ke := 0.5 * rho_new fl (dt_eff fl dt) i j * (unew * unew + vnew * vnew)
        let me := 0.5 * (bx_new fl (dt_eff fl dt) i j * bx_new fl (dt_eff fl dt) i j
          + by_new fl (dt_eff fl dt) i j * by_new fl (dt_eff fl dt) i j)
        (gamma_gas - 1) * max (e_new fl (dt_eff fl dt) i j - ke - me) 1e-10
      else fl.p i j) := rfl

/-- C8 (amended): a uniform trivial equilibrium whose density is at least the
floor and whose thermal energy `p/(γ-1)` is at least the energy floor `1e-10`
(i.e. `p ≥ (γ-1)·1e-10`) is an exact fixed point of `solve_MHD` for every
CFL-respecting `dt` and every viscosity. -/
theorem C8_uniform_fixed_point (fl : FlowState) (dt nu r pv bxv byv : ℝ)
    (h : IsUniform fl r pv bxv byv) (hr10 : 1e-10 ≤ r) (hpv0 : 0 < pv)
    (hpv : (gamma_gas - 1) * 1e-10 ≤ pv)
    (hdt : dt ≤ compute_cfl_timestep fl cfl_number_default) :
    solve_MHD fl dt nu = fl := by
  obtain ⟨hr, hu, hv, hp, hbx, hby, hps, he⟩ := h
  have h' : IsUniform fl r pv bxv byv := ⟨hr, hu, hv, hp, hbx, hby, hps, he⟩
  have hgne : gamma_gas - 1 ≠ 0 := by norm_num [gamma_gas]
  have hpq : (1e-10 : ℝ) ≤ pv / (gamma_gas - 1) := by
    rw [le_div_iff₀ (by norm_num [gamma_gas] : (0 : ℝ) < gamma_gas - 1)]
    linarith [hpv]
  refine FlowState.ext rfl rfl rfl rfl rfl rfl ?_ ?_ ?_ ?_ ?_ ?_ ?_ ?_
  · rw [solve_MHD_rho]
    funext i j
    rw [wrap_of_pointwise_const _ _ _ r (rho_new_of_uniform h' hr10 _), hr]
  · rw [solve_MHD_u]
    funext i j
    rw [wrap_of_pointwise_const _ _ _ 0 ?_, hu]
    intro i' j'
    by_cases hin : interior fl i' j'
    · rw [if_pos hin, momx_new_of_uniform h', zero_div]
    · rw [if_neg hin, hu]
  · rw [solve_MHD_v]
    funext i j
    rw [wrap_of_pointwise_const _ _ _ 0 ?_, hv]
    intro i' j'
    by_cases hin : interior fl i' j'
    · rw [if_pos hin, momy_new_of_uniform h', zero_div]
    · rw [if_neg hin, hv]
  · rw [solve_MHD_p]
    funext i j
    rw [wrap_of_pointwise_const _ _ _ pv ?_, hp]
    intro i' j'
    by_cases hin : interior fl i' j'
    · rw [if_pos hin]
      simp only [momx_new_of_uniform h', momy_new_of_uniform h',
        rho_new_of_uniform h' hr10, e_new_of_uniform h' hpv,
        bx_new_of_uniform h', by_new_of_uniform h', zero_div]
      have harith : pv / (gamma_gas - 1) + (bxv * bxv + byv * byv) / 2
          - 0.5 * r * ((0 : ℝ) * 0 + 0 * 0) - 0.5 * (bxv * bxv + byv * byv)
          = pv / (gamma_gas - 1) := by ring
      rw [harith, max_eq_left hpq, mul_comm, div_mul_cancel₀ pv hgne]
    · rw [if_neg hin, hp]
  · rw [solve_MHD_e]
    funext i j
    rw [wrap_of_pointwise_const _ _ _
      (pv / (gamma_gas - 1) + (bxv * bxv + byv * byv) / 2)
      (e_new_of_uniform h' hpv _), he]
  · rw [solve_MHD_Bx]
    funext i j
    rw [wrap_of_pointwise_const _ _ _ bxv (bx_new_of_uniform h' _), hbx]
  · rw [solve_MHD_By]
    funext i j
    rw [wrap_of_pointwise_const _ _ _ byv (by_new_of_uniform h' _), hby]
  · rw [solve_MHD_psi]
    funext i j
    rw [hps]
    unfold glm_psi divB_new
    simp only [psi_new_of_uniform h', bx_new_of_uniform h', by_new_of_uniform h']
    ring

/-- The reference state is uniform with `r = 1`, `p = 3/5`, `B = 0`. -/
theorem exA_uniform : IsUniform exA 1 (3 / 5) 0 0 := by
  refine ⟨fun _ _ => rfl, fun _ _ => rfl, fun _ _ => rfl, fun _ _ => rfl,
    fun _ _ => rfl, fun _ _ => rfl, fun _ _ => rfl, fun _ _ => ?_⟩
  show (9 : ℝ) / 10 = 3 / 5 / (gamma_gas - 1) + (0 * 0 + 0 * 0) / 2
  norm_num [gamma_gas]

/-- The CFL timestep of the reference state is exactly `1/5`. -/
theorem cfl_exA : compute_cfl_timestep exA cfl_number_default = 1 / 5 := by
  unfold compute_cfl_timestep
  have hset : interiorSet exA = {(1, 1)} := by decide
  have hcell : cell_dt exA 1 1 = 1 := by
    unfold cell_dt
    show min (1 / (|(0 : ℝ)| + compute_fast_speed 1 (3 / 5) 0 0))
      (1 / (|(0 : ℝ)| + compute_fast_speed 1 (3 / 5) 0 0)) = 1
    rw [cf_ref]
    norm_num
  rw [hset, Finset.fold_singleton, hcell]
  norm_num [CH, cfl_number_default, exA]

/-- C8 witness: the fixed-point theorem instantiated at the reference state
with the exact CFL timestep and a nonzero viscosity. -/
theorem C8_uniform_fixed_point_witness :
    IsUniform exA 1 (3 / 5) 0 0 ∧ (1e-10 : ℝ) ≤ 1 ∧ (0 : ℝ) < 3 / 5 ∧
      (gamma_gas - 1) * 1e-10 ≤ 3 / 5 ∧
      (1 / 5 : ℝ) ≤ compute_cfl_timestep exA cfl_number_default ∧
      solve_MHD exA (1 / 5) 7 = exA :=
  ⟨exA_uniform, by norm_num, by norm_num, by norm_num [gamma_gas],
    le_of_eq cfl_exA.symm,
    C8_uniform_fixed_point exA (1 / 5) 7 1 (3 / 5) 0 0 exA_uniform
      (by norm_num) (by norm_num) (by norm_num [gamma_gas])
      (le_of_eq cfl_exA.symm)⟩

/-- A uniform state with positive but tiny pressure `1e-12` (thermal energy
below the `1e-10` energy floor), consistent total energy, `B = 0`. -/
noncomputable def exC : FlowState :=
  { exA with p := fun _ _ => 1e-12, e := fun _ _ => 1e-12 / (gamma_gas - 1) }

theorem exC_uniform : IsUniform exC 1 1e-12 0 0 := by
  refine ⟨fun _ _ => rfl, fun _ _ => rfl, fun _ _ => rfl, fun _ _ => rfl,
    fun _ _ => rfl, fun _ _ => rfl, fun _ _ => rfl, fun _ _ => ?_⟩
  show (1e-12 : ℝ) / (gamma_gas - 1) = 1e-12 / (gamma_gas - 1) + (0 * 0 + 0 * 0) / 2
  ring

/-- The CFL timestep of `exC` is exactly `1/4`: the physical scan yields
`1/c_f > 1`, so the `dt_min > 1.0` guard replaces it by the GLM bound
`min(dx,dy)/c_h = 5/4`, and `0.2 · 5/4 = 1/4`. -/
theorem cfl_exC : compute_cfl_timestep exC cfl_number_default = 1 / 4 := by
  have harg : (0 : ℝ) < gamma_gas * 1e-12 / 1 + (0 * 0 + 0 * 0) / 1 := by
    norm_num [gamma_gas]
  have hcf0 : 0 < compute_fast_speed 1 1e-12 0 0 := by
    unfold compute_fast_speed
    exact Real.sqrt_pos.mpr harg
  have hcf1 : compute_fast_speed 1 1e-12 0 0 < 1 := by
    unfold compute_fast_speed
    rw [Real.sqrt_lt' (by norm_num : (0 : ℝ) < 1)]
    norm_num [gamma_gas]
  have hcfmin : 1e-10 ≤ compute_fast_speed 1 1e-12 0 0 := by
    unfold compute_fast_speed
    rw [Real.le_sqrt' (by norm_num : (0 : ℝ) < 1e-10)]
    norm_num [gamma_gas]
  have hcell : cell_dt exC 1 1 = 1 / compute_fast_speed 1 1e-12 0 0 := by
    unfold cell_dt
    show min (1 / (|(0 : ℝ)| + compute_fast_speed 1 1e-12 0 0))
      (1 / (|(0 : ℝ)| + compute_fast_speed 1 1e-12 0 0)) = _
    rw [abs_zero, zero_add, min_self]
  have hset : interiorSet exC = {(1, 1)} := by decide
  have hinv1 : (1 : ℝ) < 1 / compute_fast_speed 1 1e-12 0 0 := by
    rw [lt_div_iff₀ hcf0, one_mul]
    exact hcf1
  have hinv10 : 1 / compute_fast_speed 1 1e-12 0 0 ≤ 1e10 := by
    rw [div_le_iff₀ hcf0]
    nlinarith [hcfmin]
  unfold compute_cfl_timestep
  rw [hset, Finset.fold_singleton, hcell]
  rw [min_eq_left hinv10]
  simp only [gt_iff_lt]
  rw [if_pos hinv1]
  norm_num [CH, cfl_number_default, exC, exA]

/-- One step at `exC` raises the cell-(1,1) energy to the floor `1e-10`. -/
theorem exC_energy_after : (solve_MHD exC (1 / 4) 0).e 1 1 = 1e-10 := by
  have hin : interior exC 1 1 := by decide
  rw [solve_MHD_e, wrap_interior_eq exC _ 1 1 hin]
  unfold e_new
  rw [if_pos hin]
  unfold e_upd
  rw [fluxX_of_uniform exC_uniform, fluxX_of_uniform exC_uniform,
    fluxY_of_uniform exC_uniform, fluxY_of_uniform exC_uniform,
    rho_upd_of_uniform exC_uniform]
  show max (if (1e-12 : ℝ) / (gamma_gas - 1) - dt_eff exC (1 / 4) / exC.dx * _
      - dt_eff exC (1 / 4) / exC.dy * _ < _ then _ else _) 1e-10 = 1e-10
  norm_num [gamma_gas, exC, exA]

/-- C8 counterexample: `exC` satisfies every hypothesis of the claim as
stated (uniform, `u = v = ψ = 0`, density above the floor, pressure positive,
consistent energy, `dt` within the CFL bound) and yet `solve_MHD` changes it:
the energy floor raises `e` from `1.5e-12` to `1e-10`. -/
theorem C8_counterexample :
    IsUniform exC 1 1e-12 0 0 ∧ (1e-10 : ℝ) ≤ 1 ∧ (0 : ℝ) < 1e-12 ∧
      (1 / 4 : ℝ) ≤ compute_cfl_timestep exC cfl_number_default ∧
      solve_MHD exC (1 / 4) 0 ≠ exC := by
  refine ⟨exC_uniform, by norm_num, by norm_num, le_of_eq cfl_exC.symm, ?_⟩
  intro heq
  have he : (solve_MHD exC (1 / 4) 0).e 1 1 = exC.e 1 1 :=
    congrArg (fun s => s.e 1 1) heq
  rw [exC_energy_after] at he
  have hcontra : (1e-10 : ℝ) = 1e-12 / (gamma_gas - 1) := he
  norm_num [gamma_gas] at hcontra

/-- Sum of density over all interior cells. -/
noncomputable def interiorMass (fl : FlowState) : ℝ :=
  ∑ q ∈ interiorSet fl, fl.rho q.1 q.2

/-- The claim's precondition: the boundary cells of all seven transported
fields already mirror the interior periodically. -/
def periodicMirror (fl : FlowState) : Prop :=
  (xMirror fl.nx fl.rho ∧ yMirror fl.ny fl.rho) ∧
  (xMirror fl.nx fl.u ∧ yMirror fl.ny fl.u) ∧
  (xMirror fl.nx fl.v ∧ yMirror fl.ny fl.v) ∧
  (xMirror fl.nx fl.p ∧ yMirror fl.ny fl.p) ∧
  (xMirror fl.nx fl.Bx ∧ yMirror fl.ny fl.Bx) ∧
  (xMirror fl.nx fl.By ∧ yMirror fl.ny fl.By) ∧
  (xMirror fl.nx fl.psi ∧ yMirror fl.ny fl.psi)

/-- First-order reconstruction at the edge-adjacent cells: the limited slopes
of all seven fields vanish at `i ∈ {1, nx-2}` (x) and `j ∈ {1, ny-2}` (y). -/
def edgeSlopesZero (fl : FlowState) : Prop :=
  ((∀ j, slope_x fl.nx fl.rho 1 j = 0 ∧ slope_x fl.nx fl.rho (fl.nx - 2) j = 0) ∧
    (∀ j, slope_x fl.nx fl.u 1 j = 0 ∧ slope_x fl.nx fl.u (fl.nx - 2) j = 0) ∧
    (∀ j, slope_x fl.nx fl.v 1 j = 0 ∧ slope_x fl.nx fl.v (fl.nx - 2) j = 0) ∧
    (∀ j, slope_x fl.nx fl.p 1 j = 0 ∧ slope_x fl.nx fl.p (fl.nx - 2) j = 0) ∧
    (∀ j, slope_x fl.nx fl.Bx 1 j = 0 ∧ slope_x fl.nx fl.Bx (fl.nx - 2) j = 0) ∧
    (∀ j, slope_x fl.nx fl.By 1 j = 0 ∧ slope_x fl.nx fl.By (fl.nx - 2) j = 0) ∧
    (∀ j, slope_x fl.nx fl.psi 1 j = 0 ∧ slope_x fl.nx fl.psi (fl.nx - 2) j = 0)) ∧
  ((∀ i, slope_y fl.ny fl.rho i 1 = 0 ∧ slope_y fl.ny fl.rho i (fl.ny - 2) = 0) ∧
    (∀ i, slope_y fl.ny fl.u i 1 = 0 ∧ slope_y fl.ny fl.u i (fl.ny - 2) = 0) ∧
    (∀ i, slope_y fl.ny fl.v i 1 = 0 ∧ slope_y fl.ny fl.v i (fl.ny - 2) = 0) ∧
    (∀ i, slope_y fl.ny fl.p i 1 = 0 ∧ slope_y fl.ny fl.p i (fl.ny - 2) = 0) ∧
    (∀ i, slope_y fl.ny fl.Bx i 1 = 0 ∧ slope_y fl.ny fl.Bx i (fl.ny - 2) = 0) ∧
    (∀ i, slope_y fl.ny fl.By i 1 = 0 ∧ slope_y fl.ny fl.By i (fl.ny - 2) = 0) ∧
    (∀ i, slope_y fl.ny fl.psi i 1 = 0 ∧ slope_y fl.ny fl.psi i (fl.ny - 2) = 0))

theorem slope_x_at_zero (nx : ℕ) (f : ℕ → ℕ → ℝ) (j : ℕ) : slope_x nx f 0 j = 0 := by
  simp [slope_x]

theorem slope_x_at_top (nx : ℕ) (f : ℕ → ℕ → ℝ) (j : ℕ) :
    slope_x nx f (nx - 1) j = 0 := by
  simp [slope_x]

theorem slope_y_at_zero (ny : ℕ) (f : ℕ → ℕ → ℝ) (i : ℕ) : slope_y ny f i 0 = 0 := by
  simp [slope_y]

theorem slope_y_at_top (ny : ℕ) (f : ℕ → ℕ → ℝ) (i : ℕ) :
    slope_y ny f i (ny - 1) = 0 := by
  simp [slope_y]

theorem edge_face_args_x (nx : ℕ) (f : ℕ → ℕ → ℝ) (h3x : 3 ≤ nx)
    (mx : xMirror nx f)
    (s1 : ∀ j, slope_x nx f 1 j = 0) (s2 : ∀ j, slope_x nx f (nx - 2) j = 0) (j : ℕ) :
    f (nx - 2) j + 0.5 * slope_x nx f (nx - 2) j
      = f 0 j + 0.5 * slope_x nx f 0 j ∧
    f (nx - 2 + 1) j - 0.5 * slope_x nx f (nx - 2 + 1) j
      = f (0 + 1) j - 0.5 * slope_x nx f (0 + 1) j := by
  have h21 : nx - 2 + 1 = nx - 1 := by omega
  constructor
  · rw [s2 j, slope_x_at_zero, (mx j).1]
  · rw [h21, slope_x_at_top, (mx j).2]
    show f 1 j - 0.5 * 0 = f 1 j - 0.5 * slope_x nx f 1 j
    rw [s1 j]

theorem edge_face_args_y (ny : ℕ) (f : ℕ → ℕ → ℝ) (h3y : 3 ≤ ny)
    (my : yMirror ny f)
    (s1 : ∀ i, slope_y ny f i 1 = 0) (s2 : ∀ i, slope_y ny f i (ny - 2) = 0) (i : ℕ) :
    f i (ny - 2) + 0.5 * slope_y ny f i (ny - 2)
      = f i 0 + 0.5 * slope_y ny f i 0 ∧
    f i (ny - 2 + 1) - 0.5 * slope_y ny f i (ny - 2 + 1)
      = f i (0 + 1) - 0.5 * slope_y ny f i (0 + 1) := by
  have h21 : ny - 2 + 1 = ny - 1 := by omega
  constructor
  · rw [s2 i, slope_y_at_zero, (my i).1]
  · rw [h21, slope_y_at_top, (my i).2]
    show f i 1 - 0.5 * 0 = f i 1 - 0.5 * slope_y ny f i 1
    rw [s1 i]

theorem fluxX_congr (fl : FlowState) (i i' j j' : ℕ)
    (h1 : fl.rho i j + 0.5 * slope_x fl.nx fl.rho i j
      = fl.rho i' j' + 0.5 * slope_x fl.nx fl.rho i' j')
    (h2 : fl.u i j + 0.5 * slope_x fl.nx fl.u i j
      = fl.u i' j' + 0.5 * slope_x fl.nx fl.u i' j')
    (h3 : fl.v i j + 0.5 * slope_x fl.nx fl.v i j
      = fl.v i' j' + 0.5 * slope_x fl.nx fl.v i' j')
    (h4 : fl.p i j + 0.5 * slope_x fl.nx fl.p i j
      = fl.p i' j' + 0.5 * slope_x fl.nx fl.p i' j')
    (h5 : fl.Bx i j + 0.5 * slope_x fl.nx fl.Bx i j
      = fl.Bx i' j' + 0.5 * slope_x fl.nx fl.Bx i' j')
    (h6 : fl.By i j + 0.5 * slope_x fl.nx fl.By i j
      = fl.By i' j' + 0.5 * slope_x fl.nx fl.By i' j')
    (h7 : fl.psi i j + 0.5 * slope_x fl.nx fl.psi i j
      = fl.psi i' j' + 0.5 * slope_x fl.nx fl.psi i' j')
    (g1 : fl.rho (i + 1) j - 0.5 * slope_x fl.nx fl.rho (i + 1) j
      = fl.rho (i' + 1) j' - 0.5 * slope_x fl.nx fl.rho (i' + 1) j')
    (g2 : fl.u (i + 1) j - 0.5 * slope_x fl.nx fl.u (i + 1) j
      = fl.u (i' + 1) j' - 0.5 * slope_x fl.nx fl.u (i' + 1) j')
    (g3 : fl.v (i + 1) j - 0.5 * slope_x fl.nx fl.v (i + 1) j
      = fl.v (i' + 1) j' - 0.5 * slope_x fl.nx fl.v (i' + 1) j')
    (g4 : fl.p (i + 1) j - 0.5 * slope_x fl.nx fl.p (i + 1) j
      = fl.p (i' + 1) j' - 0.5 * slope_x fl.nx fl.p (i' + 1) j')
    (g5 : fl.Bx (i + 1) j - 0.5 * slope_x fl.nx fl.Bx (i + 1) j
      = fl.Bx (i' + 1) j' - 0.5 * slope_x fl.nx fl.Bx (i' + 1) j')
    (g6 : fl.By (i + 1) j - 0.5 * slope_x fl.nx fl.By (i + 1) j
      = fl.By (i' + 1) j' - 0.5 * slope_x fl.nx fl.By (i' + 1) j')
    (g7 : fl.psi (i + 1) j - 0.5 * slope_x fl.nx fl.psi (i + 1) j
      = fl.psi (i' + 1) j' - 0.5 * slope_x fl.nx fl.psi (i' + 1) j') :
    fluxX fl i j = fluxX fl i' j' := by
  unfold fluxX
  rw [h1, h2, h3, h4, h5, h6, h7, g1, g2, g3, g4, g5, g6, g7]

theorem fluxY_congr (fl : FlowState) (i i' j j' : ℕ)
    (h1 : fl.rho i j + 0.5 * slope_y fl.ny fl.rho i j
      = fl.rho i' j' + 0.5 * slope_y fl.ny fl.rho i' j')
    (h2 : fl.u i j + 0.5 * slope_y fl.ny fl.u i j
      = fl.u i' j' + 0.5 * slope_y fl.ny fl.u i' j')
    (h3 : fl.v i j + 0.5 * slope_y fl.ny fl.v i j
      = fl.v i' j' + 0.5 * slope_y fl.ny fl.v i' j')
    (h4 : fl.p i j + 0.5 * slope_y fl.ny fl.p i j
      = fl.p i' j' + 0.5 * slope_y fl.ny fl.p i' j')
    (h5 : fl.Bx i j + 0.5 * slope_y fl.ny fl.Bx i j
      = fl.Bx i' j' + 0.5 * slope_y fl.ny fl.Bx i' j')
    (h6 : fl.By i j + 0.5 * slope_y fl.ny fl.By i j
      = fl.By i' j' + 0.5 * slope_y fl.ny fl.By i' j')
    (h7 : fl.psi i j + 0.5 * slope_y fl.ny fl.psi i j
      = fl.psi i' j' + 0.5 * slope_y fl.ny fl.psi i' j')
    (g1 : fl.rho i (j + 1) - 0.5 * slope_y fl.ny fl.rho i (j + 1)
      = fl.rho i' (j' + 1) - 0.5 * slope_y fl.ny fl.rho i' (j' + 1))
    (g2 : fl.u i (j + 1) - 0.5 * slope_y fl.ny fl.u i (j + 1)
      = fl.u i' (j' + 1) - 0.5 * slope_y fl.ny fl.u i' (j' + 1))
    (g3 : fl.v i (j + 1) - 0.5 * slope_y fl.ny fl.v i (j + 1)
      = fl.v i' (j' + 1) - 0.5 * slope_y fl.ny fl.v i' (j' + 1))
    (g4 : fl.p i (j + 1) - 0.5 * slope_y fl.ny fl.p i (j + 1)
      = fl.p i' (j' + 1) - 0.5 * slope_y fl.ny fl.p i' (j' + 1))
    (g5 : fl.Bx i (j + 1) - 0.5 * slope_y fl.ny fl.Bx i (j + 1)
      = fl.Bx i' (j' + 1) - 0.5 * slope_y fl.ny fl.Bx i' (j' + 1))
    (g6 : fl.By i (j + 1) - 0.5 * slope_y fl.ny fl.By i (j + 1)
      = fl.By i' (j' + 1) - 0.5 * slope_y fl.ny fl.By i' (j' + 1))
    (g7 : fl.psi i (j + 1) - 0.5 * slope_y fl.ny fl.psi i (j + 1)
      = fl.psi i' (j' + 1) - 0.5 * slope_y fl.ny fl.psi i' (j' + 1)) :
    fluxY fl i j = fluxY fl i' j' := by
  unfold fluxY
  rw [h1, h2, h3, h4, h5, h6, h7, g1, g2, g3, g4, g5, g6, g7]

/-- Under periodic mirroring and vanishing edge slopes, the rightmost x-face
flux equals the leftmost x-face flux in every row. -/
theorem fluxX_face_eq (fl : FlowState) (h3x : 3 ≤ fl.nx)
    (hm : periodicMirror fl) (hs : edgeSlopesZero fl) (j : ℕ) :
    fluxX fl (fl.nx - 2) j = fluxX fl 0 j := by
  obtain ⟨⟨m1, _⟩, ⟨m2, _⟩, ⟨m3, _⟩, ⟨m4, _⟩, ⟨m5, _⟩, ⟨m6, _⟩, ⟨m7, _⟩⟩ := hm
  obtain ⟨⟨s1, s2, s3, s4, s5, s6, s7⟩, _⟩ := hs
  exact fluxX_congr fl (fl.nx - 2) 0 j j
    (edge_face_args_x fl.nx fl.rho h3x m1 (fun j => (s1 j).1) (fun j => (s1 j).2) j).1
    (edge_face_args_x fl.nx fl.u h3x m2 (fun j => (s2 j).1) (fun j => (s2 j).2) j).1
    (edge_face_args_x fl.nx fl.v h3x m3 (fun j => (s3 j).1) (fun j => (s3 j).2) j).1
    (edge_face_args_x fl.nx fl.p h3x m4 (fun j => (s4 j).1) (fun j => (s4 j).2) j).1
    (edge_face_args_x fl.nx fl.Bx h3x m5 (fun j => (s5 j).1) (fun j => (s5 j).2) j).1
    (edge_face_args_x fl.nx fl.By h3x m6 (fun j => (s6 j).1) (fun j => (s6 j).2) j).1
    (edge_face_args_x fl.nx fl.psi h3x m7 (fun j => (s7 j).1) (fun j => (s7 j).2) j).1
    (edge_face_args_x fl.nx fl.rho h3x m1 (fun j => (s1 j).1) (fun j => (s1 j).2) j).2
    (edge_face_args_x fl.nx fl.u h3x m2 (fun j => (s2 j).1) (fun j => (s2 j).2) j).2
    (edge_face_args_x fl.nx fl.v h3x m3 (fun j => (s3 j).1) (fun j => (s3 j).2) j).2
    (edge_face_args_x fl.nx fl.p h3x m4 (fun j => (s4 j).1) (fun j => (s4 j).2) j).2
    (edge_face_args_x fl.nx fl.Bx h3x m5 (fun j => (s5 j).1) (fun j => (s5 j).2) j).2
    (edge_face_args_x fl.nx fl.By h3x m6 (fun j => (s6 j).1) (fun j => (s6 j).2) j).2
    (edge_face_args_x fl.nx fl.psi h3x m7 (fun j => (s7 j).1) (fun j => (s7 j).2) j).2

/-- Under periodic mirroring and vanishing edge slopes, the topmost y-face
flux equals the bottommost y-face flux in every column. -/
theorem fluxY_face_eq (fl : FlowState) (h3y : 3 ≤ fl.ny)
    (hm : periodicMirror fl) (hs : edgeSlopesZero fl) (i : ℕ) :
    fluxY fl i (fl.ny - 2) = fluxY fl i 0 := by
  obtain ⟨⟨_, m1⟩, ⟨_, m2⟩, ⟨_, m3⟩, ⟨_, m4⟩, ⟨_, m5⟩, ⟨_, m6⟩, ⟨_, m7⟩⟩ := hm
  obtain ⟨_, ⟨s1, s2, s3, s4, s5, s6, s7⟩⟩ := hs
  exact fluxY_congr fl i i (fl.ny - 2) 0
    (edge_face_args_y fl.ny fl.rho h3y m1 (fun i => (s1 i).1) (fun i => (s1 i).2) i).1
    (edge_face_args_y fl.ny fl.u h3y m2 (fun i => (s2 i).1) (fun i => (s2 i).2) i).1
    (edge_face_args_y fl.ny fl.v h3y m3 (fun i => (s3 i).1) (fun i => (s3 i).2) i).1
    (edge_face_args_y fl.ny fl.p h3y m4 (fun i => (s4 i).1) (fun i => (s4 i).2) i).1
    (edge_face_args_y fl.ny fl.Bx h3y m5 (fun i => (s5 i).1) (fun i => (s5 i).2) i).1
    (edge_face_args_y fl.ny fl.By h3y m6 (fun i => (s6 i).1) (fun i => (s6 i).2) i).1
    (edge_face_args_y fl.ny fl.psi h3y m7 (fun i => (s7 i).1) (fun i => (s7 i).2) i).1
    (edge_face_args_y fl.ny fl.rho h3y m1 (fun i => (s1 i).1) (fun i => (s1 i).2) i).2
    (edge_face_args_y fl.ny fl.u h3y m2 (fun i => (s2 i).1) (fun i => (s2 i).2) i).2
    (edge_face_args_y fl.ny fl.v h3y m3 (fun i => (s3 i).1) (fun i => (s3 i).2) i).2
    (edge_face_args_y fl.ny fl.p h3y m4 (fun i => (s4 i).1) (fun i => (s4 i).2) i).2
    (edge_face_args_y fl.ny fl.Bx h3y m5 (fun i => (s5 i).1) (fun i => (s5 i).2) i).2
    (edge_face_args_y fl.ny fl.By h3y m6 (fun i => (s6 i).1) (fun i => (s6 i).2) i).2
    (edge_face_args_y fl.ny fl.psi h3y m7 (fun i => (s7 i).1) (fun i => (s7 i).2) i).2

/-- Telescoping identity over the interior index range. -/
theorem sum_Ico_sub_telescope (g : ℕ → ℝ) (n : ℕ) (hn : 1 ≤ n) :
    ∑ i ∈ Finset.Ico 1 n, (g i - g (i - 1)) = g (n - 1) - g 0 := by
  rw [Finset.sum_Ico_eq_sum_range]
  have hcong : ∀ k ∈ Finset.range (n - 1),
      g (1 + k) - g (1 + k - 1) = g (k + 1) - g k := by
    intro k _
    have e1 : 1 + k = k + 1 := by omega
    have e2 : k + 1 - 1 = k := by omega
    rw [e1, e2]
  rw [Finset.sum_congr rfl hcong, Finset.sum_range_sub g (n - 1)]

theorem update_level_cr_rho (cr : ℝ) (fl : FlowState) (dt nu : ℝ) :
    (update_level_cr cr fl dt nu).rho
      = wrap_y fl.ny (wrap_x fl.nx (rho_new fl (dt_eff fl dt))) := rfl

/-- C1 (amended): with periodic-mirror boundary data, vanishing edge-adjacent
limited slopes, zero viscosity, no density floor triggering, and ANY GLM
damping coefficient (so in particular `c_r = 0`), one step conserves the
interior density sum exactly. -/
theorem C1_mass_conservation (cr : ℝ) (fl : FlowState) (dt : ℝ)
    (h3x : 3 ≤ fl.nx) (h3y : 3 ≤ fl.ny)
    (hm : periodicMirror fl) (hs : edgeSlopesZero fl)
    (hfloor : ∀ i j, interior fl i j → 1e-10 ≤ rho_upd fl (dt_eff fl dt) i j) :
    interiorMass (update_level_cr cr fl dt 0) = interiorMass fl := by
  have hA : interiorMass (update_level_cr cr fl dt 0) =
      ∑ q ∈ interiorSet fl, rho_upd fl (dt_eff fl dt) q.1 q.2 := by
    unfold interiorMass
    apply Finset.sum_congr rfl
    intro q hq
    have hqi : interior fl q.1 q.2 := by
      simp only [interiorSet, Finset.mem_product, Finset.mem_Ico] at hq
      exact ⟨⟨hq.1.1, hq.1.2⟩, hq.2.1, hq.2.2⟩
    show wrap_y fl.ny (wrap_x fl.nx (rho_new fl (dt_eff fl dt))) q.1 q.2 = _
    rw [wrap_interior_eq fl _ _ _ hqi]
    unfold rho_new
    rw [if_pos hqi, max_eq_left (hfloor _ _ hqi)]
  rw [hA]
  unfold rho_upd
  rw [Finset.sum_sub_distrib, Finset.sum_sub_distrib]
  have hx0 : ∑ q ∈ interiorSet fl, dt_eff fl dt / fl.dx *
      ((fluxX fl q.1 q.2).F_rho - (fluxX fl (q.1 - 1) q.2).F_rho) = 0 := by
    rw [← Finset.mul_sum]
    apply mul_eq_zero_of_right
    unfold interiorSet
    rw [Finset.sum_product]
    rw [Finset.sum_comm]
    apply Finset.sum_eq_zero
    intro j hj
    rw [sum_Ico_sub_telescope (fun i => (fluxX fl i j).F_rho) (fl.nx - 1) (by omega)]
    have h11 : fl.nx - 1 - 1 = fl.nx - 2 := by omega
    rw [h11, fluxX_face_eq fl h3x hm hs j, sub_self]
  have hy0 : ∑ q ∈ interiorSet fl, dt_eff fl dt / fl.dy *
      ((fluxY fl q.1 q.2).F_rho - (fluxY fl q.1 (q.2 - 1)).F_rho) = 0 := by
    rw [← Finset.mul_sum]
    apply mul_eq_zero_of_right
    unfold interiorSet
    rw [Finset.sum_product]
    apply Finset.sum_eq_zero
    intro i hi
    rw [sum_Ico_sub_telescope (fun j => (fluxY fl i j).F_rho) (fl.ny - 1) (by omega)]
    have h11 : fl.ny - 1 - 1 = fl.ny - 2 := by omega
    rw [h11, fluxY_face_eq fl h3y hm hs i, sub_self]
  rw [hx0, hy0]
  unfold interiorMass
  ring

/-- C1 witness: exact conservation at the uniform reference state with
`c_r = 0`, viscosity `0`, all hypotheses discharged. -/
theorem C1_mass_conservation_witness :
    (3 ≤ exA.nx ∧ 3 ≤ exA.ny ∧ periodicMirror exA ∧ edgeSlopesZero exA ∧
      (∀ i j, interior exA i j → 1e-10 ≤ rho_upd exA (dt_eff exA 1) i j)) ∧
    interiorMass (update_level_cr 0 exA 1 0) = interiorMass exA := by
  have hm : periodicMirror exA :=
    ⟨⟨fun _ => ⟨rfl, rfl⟩, fun _ => ⟨rfl, rfl⟩⟩, ⟨fun _ => ⟨rfl, rfl⟩, fun _ => ⟨rfl, rfl⟩⟩,
      ⟨fun _ => ⟨rfl, rfl⟩, fun _ => ⟨rfl, rfl⟩⟩, ⟨fun _ => ⟨rfl, rfl⟩, fun _ => ⟨rfl, rfl⟩⟩,
      ⟨fun _ => ⟨rfl, rfl⟩, fun _ => ⟨rfl, rfl⟩⟩, ⟨fun _ => ⟨rfl, rfl⟩, fun _ => ⟨rfl, rfl⟩⟩,
      ⟨fun _ => ⟨rfl, rfl⟩, fun _ => ⟨rfl, rfl⟩⟩⟩
  have hs : edgeSlopesZero exA := by
    refine ⟨⟨?_, ?_, ?_, ?_, ?_, ?_, ?_⟩, ⟨?_, ?_, ?_, ?_, ?_, ?_, ?_⟩⟩ <;>
      intro k <;>
      exact ⟨by
        first
          | exact slope_x_of_const _ _ _ (fun _ _ => rfl) _ _
          | exact slope_y_of_const _ _ _ (fun _ _ => rfl) _ _, by
        first
          | exact slope_x_of_const _ _ _ (fun _ _ => rfl) _ _
          | exact slope_y_of_const _ _ _ (fun _ _ => rfl) _ _⟩
  have hfl : ∀ i j, interior exA i j → 1e-10 ≤ rho_upd exA (dt_eff exA 1) i j := by
    intro i j _
    rw [rho_upd_of_uniform exA_uniform]
    norm_num
  exact ⟨⟨by decide, by decide, hm, hs, hfl⟩,
    C1_mass_conservation 0 exA 1 (by decide) (by decide) hm hs hfl⟩

/-- A 5x3 state that mirrors the interior periodically: supersonic uniform
flow `u = 10` with `p = 3/5`, `B = 0`, `ψ = 0`, and row-constant density
`(9/4, 1, 4, 9/4, 1)`; the minmod slope of `ρ` at `i = 3` is `-5/4` while the
halo cells carry zero slopes, so the boundary-face fluxes do not match. -/
noncomputable def ex5 : FlowState where
  nx := 5
  ny := 3
  dx := 1
  dy := 1
  x0 := 0
  y0 := 0
  rho := fun i _ =>
    if i = 0 then 9 / 4 else if i = 1 then 1 else if i = 2 then 4
    else if i = 3 then 9 / 4 else 1
  u := fun _ _ => 10
  v := fun _ _ => 0
  p := fun _ _ => 3 / 5
  e := fun _ _ => 100
  Bx := fun _ _ => 0
  By := fun _ _ => 0
  psi := fun _ _ => 0

theorem sx_ex5_u (i j : ℕ) : slope_x ex5.nx ex5.u i j = 0 :=
  slope_x_of_const _ _ 10 (fun _ _ => rfl) i j

theorem sx_ex5_v (i j : ℕ) : slope_x ex5.nx ex5.v i j = 0 :=
  slope_x_of_const _ _ 0 (fun _ _ => rfl) i j

theorem sx_ex5_p (i j : ℕ) : slope_x ex5.nx ex5.p i j = 0 :=
  slope_x_of_const _ _ (3 / 5) (fun _ _ => rfl) i j

theorem sx_ex5_Bx (i j : ℕ) : slope_x ex5.nx ex5.Bx i j = 0 :=
  slope_x_of_const _ _ 0 (fun _ _ => rfl) i j

theorem sx_ex5_By (i j : ℕ) : slope_x ex5.nx ex5.By i j = 0 :=
  slope_x_of_const _ _ 0 (fun _ _ => rfl) i j

theorem sx_ex5_psi (i j : ℕ) : slope_x ex5.nx ex5.psi i j = 0 :=
  slope_x_of_const _ _ 0 (fun _ _ => rfl) i j

theorem sy_ex5_u (i j : ℕ) : slope_y ex5.ny ex5.u i j = 0 :=
  slope_y_of_const _ _ 10 (fun _ _ => rfl) i j

theorem sy_ex5_v (i j : ℕ) : slope_y ex5.ny ex5.v i j = 0 :=
  slope_y_of_const _ _ 0 (fun _ _ => rfl) i j

theorem sy_ex5_p (i j : ℕ) : slope_y ex5.ny ex5.p i j = 0 :=
  slope_y_of_const _ _ (3 / 5) (fun _ _ => rfl) i j

theorem sy_ex5_Bx (i j : ℕ) : slope_y ex5.ny ex5.Bx i j = 0 :=
  slope_y_of_const _ _ 0 (fun _ _ => rfl) i j

theorem sy_ex5_By (i j : ℕ) : slope_y ex5.ny ex5.By i j = 0 :=
  slope_y_of_const _ _ 0 (fun _ _ => rfl) i j

theorem sy_ex5_psi (i j : ℕ) : slope_y ex5.ny ex5.psi i j = 0 :=
  slope_y_of_const _ _ 0 (fun _ _ => rfl) i j

theorem sy_ex5_rho (i j : ℕ) : slope_y ex5.ny ex5.rho i j = 0 := by
  simp [slope_y, minmod, ex5]

theorem sx_ex5_rho0 (j : ℕ) : slope_x ex5.nx ex5.rho 0 j = 0 :=
  slope_x_at_zero _ _ _

theorem sx_ex5_rho1 (j : ℕ) : slope_x ex5.nx ex5.rho 1 j = 0 := by
  norm_num [slope_x, minmod, ex5]

theorem sx_ex5_rho2 (j : ℕ) : slope_x ex5.nx ex5.rho 2 j = 0 := by
  norm_num [slope_x, minmod, ex5]

theorem sx_ex5_rho3 (j : ℕ) : slope_x ex5.nx ex5.rho 3 j = -(5 / 4) := by
  have h1 : ex5.rho 3 j - ex5.rho 2 j = -(7 / 4) := by norm_num [ex5]
  have h2 : ex5.rho 4 j - ex5.rho 3 j = -(5 / 4) := by norm_num [ex5]
  have hab : ¬(|(-(7 / 4) : ℝ)| < |(-(5 / 4) : ℝ)|) := by
    rw [abs_of_neg (by norm_num : (-(7 / 4) : ℝ) < 0),
      abs_of_neg (by norm_num : (-(5 / 4) : ℝ) < 0)]
    norm_num
  unfold slope_x
  rw [if_pos (by norm_num [ex5] : (1 : ℕ) ≤ 3 ∧ 3 < ex5.nx - 1)]
  show minmod (ex5.rho 3 j - ex5.rho 2 j) (ex5.rho 4 j - ex5.rho 3 j) = -(5 / 4)
  rw [h1, h2]
  unfold minmod
  rw [if_neg (by norm_num : ¬((-(7 / 4) : ℝ) * (-(5 / 4)) ≤ 0)), if_neg hab]

theorem sx_ex5_rho4 (j : ℕ) : slope_x ex5.nx ex5.rho 4 j = 0 := by
  simp [slope_x, ex5]

/-- Supersonic case of the x-HLL solver: both signal speeds positive gives
the pure left physical flux. -/
theorem hll_x_left_branch (rhoL uL vL pL BxL ByL psiL rhoR uR vR pR BxR ByR psiR : ℝ)
    (h1 : 0 < uL - compute_fast_speed rhoL pL BxL ByL)
    (h2 : 0 < uR - compute_fast_speed rhoR pR BxR ByR) :
    compute_hll_flux_x rhoL uL vL pL BxL ByL psiL rhoR uR vR pR BxR ByR psiR =
      phys_flux_x rhoL uL vL pL BxL ByL psiL := by
  unfold compute_hll_flux_x phys_flux_x
  simp only [gt_iff_lt]
  rw [if_pos (lt_min h1 h2)]

/-- Argument-evaluation helper: `fluxX` with all fourteen reconstructed face
values rewritten to explicit constants. -/
theorem fluxX_eval (fl : FlowState) (i j : ℕ)
    (a1 a2 a3 a4 a5 a6 a7 b1 b2 b3 b4 b5 b6 b7 : ℝ)
    (h1 : fl.rho i j + 0.5 * slope_x fl.nx fl.rho i j = a1)
    (h2 : fl.u i j + 0.5 * slope_x fl.nx fl.u i j = a2)
    (h3 : fl.v i j + 0.5 * slope_x fl.nx fl.v i j = a3)
    (h4 : fl.p i j + 0.5 * slope_x fl.nx fl.p i j = a4)
    (h5 : fl.Bx i j + 0.5 * slope_x fl.nx fl.Bx i j = a5)
    (h6 : fl.By i j + 0.5 * slope_x fl.nx fl.By i j = a6)
    (h7 : fl.psi i j + 0.5 * slope_x fl.nx fl.psi i j = a7)
    (g1 : fl.rho (i + 1) j - 0.5 * slope_x fl.nx fl.rho (i + 1) j = b1)
    (g2 : fl.u (i + 1) j - 0.5 * slope_x fl.nx fl.u (i + 1) j = b2)
    (g3 : fl.v (i + 1) j - 0.5 * slope_x fl.nx fl.v (i + 1) j = b3)
    (g4 : fl.p (i + 1) j - 0.5 * slope_x fl.nx fl.p (i + 1) j = b4)
    (g5 : fl.Bx (i + 1) j - 0.5 * slope_x fl.nx fl.Bx (i + 1) j = b5)
    (g6 : fl.By (i + 1) j - 0.5 * slope_x fl.nx fl.By (i + 1) j = b6)
    (g7 : fl.psi (i + 1) j - 0.5 * slope_x fl.nx fl.psi (i + 1) j = b7) :
    fluxX fl i j
      = compute_hll_flux_x a1 a2 a3 a4 a5 a6 a7 b1 b2 b3 b4 b5 b6 b7 := by
  unfold fluxX
  rw [h1, h2, h3, h4, h5, h6, h7, g1, g2, g3, g4, g5, g6, g7]

/-- Argument-evaluation helper for `fluxY`. -/
theorem fluxY_eval (fl : FlowState) (i j : ℕ)
    (a1 a2 a3 a4 a5 a6 a7 b1 b2 b3 b4 b5 b6 b7 : ℝ)
    (h1 : fl.rho i j + 0.5 * slope_y fl.ny fl.rho i j = a1)
    (h2 : fl.u i j + 0.5 * slope_y fl.ny fl.u i j = a2)
    (h3 : fl.v i j + 0.5 * slope_y fl.ny fl.v i j = a3)
    (h4 : fl.p i j + 0.5 * slope_y fl.ny fl.p i j = a4)
    (h5 : fl.Bx i j + 0.5 * slope_y fl.ny fl.Bx i j = a5)
    (h6 : fl.By i j + 0.5 * slope_y fl.ny fl.By i j = a6)
    (h7 : fl.psi i j + 0.5 * slope_y fl.ny fl.psi i j = a7)
    (g1 : fl.rho i (j + 1) - 0.5 * slope_y fl.ny fl.rho i (j + 1) = b1)
    (g2 : fl.u i (j + 1) - 0.5 * slope_y fl.ny fl.u i (j + 1) = b2)
    (g3 : fl.v i (j + 1) - 0.5 * slope_y fl.ny fl.v i (j + 1) = b3)
    (g4 : fl.p i (j + 1) - 0.5 * slope_y fl.ny fl.p i (j + 1) = b4)
    (g5 : fl.Bx i (j + 1) - 0.5 * slope_y fl.ny fl.Bx i (j + 1) = b5)
    (g6 : fl.By i (j + 1) - 0.5 * slope_y fl.ny fl.By i (j + 1) = b6)
    (g7 : fl.psi i (j + 1) - 0.5 * slope_y fl.ny fl.psi i (j + 1) = b7) :
    fluxY fl i j
      = compute_hll_flux_y a1 a2 a3 a4 a5 a6 a7 b1 b2 b3 b4 b5 b6 b7 := by
  unfold fluxY
  rw [h1, h2, h3, h4, h5, h6, h7, g1, g2, g3, g4, g5, g6, g7]

/-- Fast speed bound for `p = 3/5`, `B = 0`, `ρ ≥ 1`: below `10`. -/
theorem cf_lt_ten (r : ℝ) (hr : 1 ≤ r) : compute_fast_speed r (3 / 5) 0 0 < 10 := by
  have h0 : (0 : ℝ) < r := by linarith
  unfold compute_fast_speed
  rw [Real.sqrt_lt' (by norm_num : (0 : ℝ) < 10)]
  rw [show gamma_gas * (3 / 5) = 1 by norm_num [gamma_gas]]
  rw [show ((0 : ℝ) * 0 + 0 * 0) / r = 0 by norm_num, add_zero, div_lt_iff₀ h0]
  nlinarith [hr]

theorem fluxX_ex5_0 : fluxX ex5 0 1 = phys_flux_x (9 / 4) 10 0 (3 / 5) 0 0 0 := by
  rw [fluxX_eval ex5 0 1 (9 / 4) 10 0 (3 / 5) 0 0 0 1 10 0 (3 / 5) 0 0 0
    (by rw [sx_ex5_rho0]; norm_num [ex5]) (by rw [sx_ex5_u]; norm_num [ex5])
    (by rw [sx_ex5_v]; norm_num [ex5]) (by rw [sx_ex5_p]; norm_num [ex5])
    (by rw [sx_ex5_Bx]; norm_num [ex5]) (by rw [sx_ex5_By]; norm_num [ex5])
    (by rw [sx_ex5_psi]; norm_num [ex5])
    (show ex5.rho 1 1 - 0.5 * slope_x ex5.nx ex5.rho 1 1 = 1 by
      rw [sx_ex5_rho1]; norm_num [ex5])
    (by rw [sx_ex5_u]; norm_num [ex5]) (by rw [sx_ex5_v]; norm_num [ex5])
    (by rw [sx_ex5_p]; norm_num [ex5]) (by rw [sx_ex5_Bx]; norm_num [ex5])
    (by rw [sx_ex5_By]; norm_num [ex5]) (by rw [sx_ex5_psi]; norm_num [ex5])]
  exact hll_x_left_branch _ _ _ _ _ _ _ _ _ _ _ _ _ _
    (by have := cf_lt_ten (9 / 4) (by norm_num); linarith)
    (by have := cf_lt_ten 1 (by norm_num); linarith)

theorem fluxX_ex5_1 : fluxX ex5 1 1 = phys_flux_x 1 10 0 (3 / 5) 0 0 0 := by
  rw [fluxX_eval ex5 1 1 1 10 0 (3 / 5) 0 0 0 4 10 0 (3 / 5) 0 0 0
    (by rw [sx_ex5_rho1]; norm_num [ex5]) (by rw [sx_ex5_u]; norm_num [ex5])
    (by rw [sx_ex5_v]; norm_num [ex5]) (by rw [sx_ex5_p]; norm_num [ex5])
    (by rw [sx_ex5_Bx]; norm_num [ex5]) (by rw [sx_ex5_By]; norm_num [ex5])
    (by rw [sx_ex5_psi]; norm_num [ex5])
    (show ex5.rho 2 1 - 0.5 * slope_x ex5.nx ex5.rho 2 1 = 4 by
      rw [sx_ex5_rho2]; norm_num [ex5])
    (by rw [sx_ex5_u]; norm_num [ex5]) (by rw [sx_ex5_v]; norm_num [ex5])
    (by rw [sx_ex5_p]; norm_num [ex5]) (by rw [sx_ex5_Bx]; norm_num [ex5])
    (by rw [sx_ex5_By]; norm_num [ex5]) (by rw [sx_ex5_psi]; norm_num [ex5])]
  exact hll_x_left_branch _ _ _ _ _ _ _ _ _ _ _ _ _ _
    (by have := cf_lt_ten 1 (by norm_num); linarith)
    (by have := cf_lt_ten 4 (by norm_num); linarith)

theorem fluxX_ex5_2 : fluxX ex5 2 1 = phys_flux_x 4 10 0 (3 / 5) 0 0 0 := by
  rw [fluxX_eval ex5 2 1 4 10 0 (3 / 5) 0 0 0 (23 / 8) 10 0 (3 / 5) 0 0 0
    (by rw [sx_ex5_rho2]; norm_num [ex5]) (by rw [sx_ex5_u]; norm_num [ex5])
    (by rw [sx_ex5_v]; norm_num [ex5]) (by rw [sx_ex5_p]; norm_num [ex5])
    (by rw [sx_ex5_Bx]; norm_num [ex5]) (by rw [sx_ex5_By]; norm_num [ex5])
    (by rw [sx_ex5_psi]; norm_num [ex5])
    (show ex5.rho 3 1 - 0.5 * slope_x ex5.nx ex5.rho 3 1 = 23 / 8 by
      rw [sx_ex5_rho3]; norm_num [ex5])
    (by rw [sx_ex5_u]; norm_num [ex5]) (by rw [sx_ex5_v]; norm_num [ex5])
    (by rw [sx_ex5_p]; norm_num [ex5]) (by rw [sx_ex5_Bx]; norm_num [ex5])
    (by rw [sx_ex5_By]; norm_num [ex5]) (by rw [sx_ex5_psi]; norm_num [ex5])]
  exact hll_x_left_branch _ _ _ _ _ _ _ _ _ _ _ _ _ _
    (by have := cf_lt_ten 4 (by norm_num); linarith)
    (by have := cf_lt_ten (23 / 8) (by norm_num); linarith)

theorem fluxX_ex5_3 : fluxX ex5 3 1 = phys_flux_x (13 / 8) 10 0 (3 / 5) 0 0 0 := by
  rw [fluxX_eval ex5 3 1 (13 / 8) 10 0 (3 / 5) 0 0 0 1 10 0 (3 / 5) 0 0 0
    (by rw [sx_ex5_rho3]; norm_num [ex5]) (by rw [sx_ex5_u]; norm_num [ex5])
    (by rw [sx_ex5_v]; norm_num [ex5]) (by rw [sx_ex5_p]; norm_num [ex5])
    (by rw [sx_ex5_Bx]; norm_num [ex5]) (by rw [sx_ex5_By]; norm_num [ex5])
    (by rw [sx_ex5_psi]; norm_num [ex5])
    (show ex5.rho 4 1 - 0.5 * slope_x ex5.nx ex5.rho 4 1 = 1 by
      rw [sx_ex5_rho4]; norm_num [ex5])
    (by rw [sx_ex5_u]; norm_num [ex5]) (by rw [sx_ex5_v]; norm_num [ex5])
    (by rw [sx_ex5_p]; norm_num [ex5]) (by rw [sx_ex5_Bx]; norm_num [ex5])
    (by rw [sx_ex5_By]; norm_num [ex5]) (by rw [sx_ex5_psi]; norm_num [ex5])]
  exact hll_x_left_branch _ _ _ _ _ _ _ _ _ _ _ _ _ _
    (by have := cf_lt_ten (13 / 8) (by norm_num); linarith)
    (by have := cf_lt_ten 1 (by norm_num); linarith)

/-- The two y-faces of every ex5 cell carry identical states, so their fluxes
coincide. -/
theorem fluxY_ex5_eq (i : ℕ) : fluxY ex5 i 1 = fluxY ex5 i 0 := by
  unfold fluxY
  simp only [sy_ex5_rho, sy_ex5_u, sy_ex5_v, sy_ex5_p, sy_ex5_Bx, sy_ex5_By,
    sy_ex5_psi]
  rfl

theorem cf_four : compute_fast_speed 4 (3 / 5) 0 0 = 1 / 2 := by
  unfold compute_fast_speed
  rw [show gamma_gas * (3 / 5) / 4 + ((0 : ℝ) * 0 + 0 * 0) / 4 = (1 / 2) ^ 2 by
    norm_num [gamma_gas]]
  exact Real.sqrt_sq (by norm_num)

theorem cf_nine_fourths : compute_fast_speed (9 / 4) (3 / 5) 0 0 = 2 / 3 := by
  unfold compute_fast_speed
  rw [show gamma_gas * (3 / 5) / (9 / 4) + ((0 : ℝ) * 0 + 0 * 0) / (9 / 4)
      = (2 / 3) ^ 2 by norm_num [gamma_gas]]
  exact Real.sqrt_sq (by norm_num)

theorem cell_ex5_11 : cell_dt ex5 1 1 = 1 / 11 := by
  show min (1 / (|(10 : ℝ)| + compute_fast_speed 1 (3 / 5) 0 0))
    (1 / (|(0 : ℝ)| + compute_fast_speed 1 (3 / 5) 0 0)) = 1 / 11
  rw [cf_ref, abs_of_pos (by norm_num : (0 : ℝ) < 10), abs_zero]
  rw [min_eq_left (by norm_num)]
  norm_num

theorem cell_ex5_21 : cell_dt ex5 2 1 = 2 / 21 := by
  show min (1 / (|(10 : ℝ)| + compute_fast_speed 4 (3 / 5) 0 0))
    (1 / (|(0 : ℝ)| + compute_fast_speed 4 (3 / 5) 0 0)) = 2 / 21
  rw [cf_four, abs_of_pos (by norm_num : (0 : ℝ) < 10), abs_zero]
  rw [min_eq_left (by norm_num)]
  norm_num

theorem cell_ex5_31 : cell_dt ex5 3 1 = 3 / 32 := by
  show min (1 / (|(10 : ℝ)| + compute_fast_speed (9 / 4) (3 / 5) 0 0))
    (1 / (|(0 : ℝ)| + compute_fast_speed (9 / 4) (3 / 5) 0 0)) = 3 / 32
  rw [cf_nine_fourths, abs_of_pos (by norm_num : (0 : ℝ) < 10), abs_zero]
  rw [min_eq_left (by norm_num)]
  norm_num

theorem cfl_ex5 : compute_cfl_timestep ex5 cfl_number_default = 1 / 55 := by
  unfold compute_cfl_timestep
  rw [show interiorSet ex5 = ({(1, 1), (2, 1), (3, 1)} : Finset (ℕ × ℕ)) from by
    decide]
  rw [show ({(1, 1), (2, 1), (3, 1)} : Finset (ℕ × ℕ))
      = insert (1, 1) (insert (2, 1) {(3, 1)}) from rfl]
  rw [Finset.fold_insert (by decide), Finset.fold_insert (by decide),
    Finset.fold_singleton]
  norm_num only [cell_ex5_11, cell_ex5_21, cell_ex5_31]
  rw [min_eq_left (by norm_num : (3 / 32 : ℝ) ≤ 10000000000),
    min_eq_right (by norm_num : (3 / 32 : ℝ) ≤ 2 / 21),
    min_eq_left (by norm_num : (1 / 11 : ℝ) ≤ 3 / 32)]
  simp only [gt_iff_lt]
  rw [if_neg (by norm_num : ¬((1 : ℝ) < 1 / 11))]
  show cfl_number_default * min (1 / 11) (min ex5.dx ex5.dy / CH) = 1 / 55
  rw [show min ex5.dx ex5.dy = 1 from min_self 1]
  rw [min_eq_left (by norm_num [CH] : (1 / 11 : ℝ) ≤ 1 / CH)]
  norm_num [cfl_number_default]

theorem dtE_ex5 : dt_eff ex5 1 = 1 / 55 := by
  unfold dt_eff
  rw [cfl_ex5]
  norm_num

theorem rho_upd_ex5_1 : rho_upd ex5 (dt_eff ex5 1) 1 1 = 27 / 22 := by
  show ex5.rho 1 1
      - dt_eff ex5 1 / ex5.dx * ((fluxX ex5 1 1).F_rho - (fluxX ex5 0 1).F_rho)
      - dt_eff ex5 1 / ex5.dy * ((fluxY ex5 1 1).F_rho - (fluxY ex5 1 0).F_rho)
    = 27 / 22
  rw [dtE_ex5, fluxX_ex5_1, fluxX_ex5_0, fluxY_ex5_eq 1]
  norm_num [phys_flux_x, ex5]

theorem rho_upd_ex5_2 : rho_upd ex5 (dt_eff ex5 1) 2 1 = 38 / 11 := by
  show ex5.rho 2 1
      - dt_eff ex5 1 / ex5.dx * ((fluxX ex5 2 1).F_rho - (fluxX ex5 1 1).F_rho)
      - dt_eff ex5 1 / ex5.dy * ((fluxY ex5 2 1).F_rho - (fluxY ex5 2 0).F_rho)
    = 38 / 11
  rw [dtE_ex5, fluxX_ex5_2, fluxX_ex5_1, fluxY_ex5_eq 2]
  norm_num [phys_flux_x, ex5]

theorem rho_upd_ex5_3 : rho_upd ex5 (dt_eff ex5 1) 3 1 = 59 / 22 := by
  show ex5.rho 3 1
      - dt_eff ex5 1 / ex5.dx * ((fluxX ex5 3 1).F_rho - (fluxX ex5 2 1).F_rho)
      - dt_eff ex5 1 / ex5.dy * ((fluxY ex5 3 1).F_rho - (fluxY ex5 3 0).F_rho)
    = 59 / 22
  rw [dtE_ex5, fluxX_ex5_3, fluxX_ex5_2, fluxY_ex5_eq 3]
  norm_num [phys_flux_x, ex5]

theorem interiorMass_ex5 : interiorMass ex5 = 29 / 4 := by
  unfold interiorMass
  rw [show interiorSet ex5 = ({(1, 1), (2, 1), (3, 1)} : Finset (ℕ × ℕ)) from by
    decide]
  rw [Finset.sum_insert (by decide), Finset.sum_insert (by decide),
    Finset.sum_singleton]
  norm_num [ex5]

theorem res_rho_ex5 (i j : ℕ) (hij : interior ex5 i j) :
    (update_level_cr 0 ex5 1 0).rho i j
      = max (rho_upd ex5 (dt_eff ex5 1) i j) 1e-10 := by
  show wrap_y ex5.ny (wrap_x ex5.nx (rho_new ex5 (dt_eff ex5 1))) i j = _
  rw [wrap_interior_eq ex5 _ _ _ hij]
  unfold rho_new
  rw [if_pos hij]

theorem interiorMass_ex5_after : interiorMass (update_level_cr 0 ex5 1 0) = 81 / 11 := by
  unfold interiorMass
  rw [show interiorSet (update_level_cr 0 ex5 1 0) = interiorSet ex5 from rfl]
  rw [show interiorSet ex5 = ({(1, 1), (2, 1), (3, 1)} : Finset (ℕ × ℕ)) from by
    decide]
  rw [Finset.sum_insert (by decide), Finset.sum_insert (by decide),
    Finset.sum_singleton]
  show (update_level_cr 0 ex5 1 0).rho 1 1
      + ((update_level_cr 0 ex5 1 0).rho 2 1 + (update_level_cr 0 ex5 1 0).rho 3 1)
    = 81 / 11
  rw [res_rho_ex5 1 1 (by decide), res_rho_ex5 2 1 (by decide),
    res_rho_ex5 3 1 (by decide), rho_upd_ex5_1, rho_upd_ex5_2, rho_upd_ex5_3,
    max_eq_left (by norm_num), max_eq_left (by norm_num), max_eq_left (by norm_num)]
  norm_num

/-- C1 counterexample: `ex5` satisfies the claim's hypotheses — periodic
mirror boundary data, zero viscosity, zero GLM damping, no density floor
triggered — yet one step changes the interior density sum from `29/4` to
`81/11`: the zero slopes of the halo cells break the flux telescoping at the
boundary faces. -/
theorem C1_counterexample :
    periodicMirror ex5 ∧
    (∀ i j, interior ex5 i j → 1e-10 ≤ rho_upd ex5 (dt_eff ex5 1) i j) ∧
    interiorMass (update_level_cr 0 ex5 1 0) ≠ interiorMass ex5 := by
  refine ⟨⟨⟨fun _ => ⟨rfl, rfl⟩, fun _ => ⟨rfl, rfl⟩⟩,
    ⟨fun _ => ⟨rfl, rfl⟩, fun _ => ⟨rfl, rfl⟩⟩, ⟨fun _ => ⟨rfl, rfl⟩, fun _ => ⟨rfl, rfl⟩⟩,
    ⟨fun _ => ⟨rfl, rfl⟩, fun _ => ⟨rfl, rfl⟩⟩, ⟨fun _ => ⟨rfl, rfl⟩, fun _ => ⟨rfl, rfl⟩⟩,
    ⟨fun _ => ⟨rfl, rfl⟩, fun _ => ⟨rfl, rfl⟩⟩, ⟨fun _ => ⟨rfl, rfl⟩, fun _ => ⟨rfl, rfl⟩⟩⟩,
    ?_, ?_⟩
  · intro i j hij
    obtain ⟨⟨hi1, hi2⟩, hj1, hj2⟩ := hij
    have hi2' : i < 4 := hi2
    have hj2' : j < 2 := hj2
    interval_cases i <;> interval_cases j
    · rw [rho_upd_ex5_1]; norm_num
    · rw [rho_upd_ex5_2]; norm_num
    · rw [rho_upd_ex5_3]; norm_num
  · rw [interiorMass_ex5_after, interiorMass_ex5]
    norm_num

/-- A 3x3 state at rest (`ρ = 1`, `p = 3/5`, `B = 0`, `e = 100`) whose `ψ` is
`1` on the column `i = 0` and `0` elsewhere; it exposes the stale boundary
entries of the GLM scratch arrays. -/
noncomputable def exB : FlowState where
  nx := 3
  ny := 3
  dx := 1
  dy := 1
  x0 := 0
  y0 := 0
  rho := fun _ _ => 1
  u := fun _ _ => 0
  v := fun _ _ => 0
  p := fun _ _ => 3 / 5
  e := fun _ _ => 100
  Bx := fun _ _ => 0
  By := fun _ _ => 0
  psi := fun i _ => if i = 0 then 1 else 0

theorem sx_exB_rho (i j : ℕ) : slope_x exB.nx exB.rho i j = 0 :=
  slope_x_of_const _ _ 1 (fun _ _ => rfl) i j

theorem sx_exB_u (i j : ℕ) : slope_x exB.nx exB.u i j = 0 :=
  slope_x_of_const _ _ 0 (fun _ _ => rfl) i j

theorem sx_exB_v (i j : ℕ) : slope_x exB.nx exB.v i j = 0 :=
  slope_x_of_const _ _ 0 (fun _ _ => rfl) i j

theorem sx_exB_p (i j : ℕ) : slope_x exB.nx exB.p i j = 0 :=
  slope_x_of_const _ _ (3 / 5) (fun _ _ => rfl) i j

theorem sx_exB_Bx (i j : ℕ) : slope_x exB.nx exB.Bx i j = 0 :=
  slope_x_of_const _ _ 0 (fun _ _ => rfl) i j

theorem sx_exB_By (i j : ℕ) : slope_x exB.nx exB.By i j = 0 :=
  slope_x_of_const _ _ 0 (fun _ _ => rfl) i j

theorem sx_exB_psi (i j : ℕ) : slope_x exB.nx exB.psi i j = 0 := by
  unfold slope_x
  split_ifs with h
  · have h2 : i < 2 := h.2
    have hi : i = 1 := by omega
    subst hi
    norm_num [exB, minmod]
  · rfl

theorem sy_exB_rho (i j : ℕ) : slope_y exB.ny exB.rho i j = 0 :=
  slope_y_of_const _ _ 1 (fun _ _ => rfl) i j

theorem sy_exB_u (i j : ℕ) : slope_y exB.ny exB.u i j = 0 :=
  slope_y_of_const _ _ 0 (fun _ _ => rfl) i j

theorem sy_exB_v (i j : ℕ) : slope_y exB.ny exB.v i j = 0 :=
  slope_y_of_const _ _ 0 (fun _ _ => rfl) i j

theorem sy_exB_p (i j : ℕ) : slope_y exB.ny exB.p i j = 0 :=
  slope_y_of_const _ _ (3 / 5) (fun _ _ => rfl) i j

theorem sy_exB_Bx (i j : ℕ) : slope_y exB.ny exB.Bx i j = 0 :=
  slope_y_of_const _ _ 0 (fun _ _ => rfl) i j

theorem sy_exB_By (i j : ℕ) : slope_y exB.ny exB.By i j = 0 :=
  slope_y_of_const _ _ 0 (fun _ _ => rfl) i j

theorem sy_exB_psi (i j : ℕ) : slope_y exB.ny exB.psi i j = 0 := by
  simp [slope_y, minmod, exB]

theorem cfl_exB : compute_cfl_timestep exB cfl_number_default = 1 / 5 := by
  unfold compute_cfl_timestep
  have hset : interiorSet exB = {(1, 1)} := by decide
  have hcell : cell_dt exB 1 1 = 1 := by
    unfold cell_dt
    show min (1 / (|(0 : ℝ)| + compute_fast_speed 1 (3 / 5) 0 0))
      (1 / (|(0 : ℝ)| + compute_fast_speed 1 (3 / 5) 0 0)) = 1
    rw [cf_ref]
    norm_num
  rw [hset, Finset.fold_singleton, hcell]
  norm_num [CH, cfl_number_default, exB]

theorem dtB_eq : dt_eff exB 1 = 1 / 5 := by
  unfold dt_eff
  rw [cfl_exB]
  norm_num

theorem fluxX_exB_1 :
    fluxX exB 1 1 = compute_hll_flux_x 1 0 0 (3 / 5) 0 0 0 1 0 0 (3 / 5) 0 0 0 :=
  fluxX_eval exB 1 1 1 0 0 (3 / 5) 0 0 0 1 0 0 (3 / 5) 0 0 0
    (by rw [sx_exB_rho]; norm_num [exB]) (by rw [sx_exB_u]; norm_num [exB])
    (by rw [sx_exB_v]; norm_num [exB]) (by rw [sx_exB_p]; norm_num [exB])
    (by rw [sx_exB_Bx]; norm_num [exB]) (by rw [sx_exB_By]; norm_num [exB])
    (by rw [sx_exB_psi]; norm_num [exB])
    (by rw [sx_exB_rho]; norm_num [exB]) (by rw [sx_exB_u]; norm_num [exB])
    (by rw [sx_exB_v]; norm_num [exB]) (by rw [sx_exB_p]; norm_num [exB])
    (by rw [sx_exB_Bx]; norm_num [exB]) (by rw [sx_exB_By]; norm_num [exB])
    (by rw [sx_exB_psi]; norm_num [exB])

theorem fluxX_exB_0 :
    fluxX exB 0 1 = compute_hll_flux_x 1 0 0 (3 / 5) 0 0 1 1 0 0 (3 / 5) 0 0 0 :=
  fluxX_eval exB 0 1 1 0 0 (3 / 5) 0 0 1 1 0 0 (3 / 5) 0 0 0
    (by rw [sx_exB_rho]; norm_num [exB]) (by rw [sx_exB_u]; norm_num [exB])
    (by rw [sx_exB_v]; norm_num [exB]) (by rw [sx_exB_p]; norm_num [exB])
    (by rw [sx_exB_Bx]; norm_num [exB]) (by rw [sx_exB_By]; norm_num [exB])
    (by rw [sx_exB_psi]; norm_num [exB])
    (by rw [sx_exB_rho]; norm_num [exB]) (by rw [sx_exB_u]; norm_num [exB])
    (by rw [sx_exB_v]; norm_num [exB]) (by rw [sx_exB_p]; norm_num [exB])
    (by rw [sx_exB_Bx]; norm_num [exB]) (by rw [sx_exB_By]; norm_num [exB])
    (by rw [sx_exB_psi]; norm_num [exB])

theorem fluxY_exB_eq (i : ℕ) : fluxY exB i 1 = fluxY exB i 0 := by
  unfold fluxY
  simp only [sy_exB_rho, sy_exB_u, sy_exB_v, sy_exB_p, sy_exB_Bx, sy_exB_By,
    sy_exB_psi]
  rfl

/-- The symmetric middle-branch flux at the rest state. -/
theorem hll_exB_mid :
    compute_hll_flux_x 1 0 0 (3 / 5) 0 0 0 1 0 0 (3 / 5) 0 0 0
      = ⟨0, 3 / 5, 0, 0, 0, 0, 0⟩ := by
  unfold compute_hll_flux_x
  rw [cf_ref]
  norm_num [CH]

/-- The middle-branch flux at the face between the `ψ = 1` halo column and
the interior. -/
theorem hll_exB_left :
    compute_hll_flux_x 1 0 0 (3 / 5) 0 0 1 1 0 0 (3 / 5) 0 0 0
      = ⟨0, 3 / 5, 0, 0, 1 / 2, 0, 8 / 25⟩ := by
  unfold compute_hll_flux_x
  rw [cf_ref]
  norm_num [CH]

theorem bx_new_exB_11 : bx_new exB (dt_eff exB 1) 1 1 = 1 / 10 := by
  unfold bx_new
  rw [if_pos (by decide : interior exB 1 1)]
  unfold bx_upd bx_flux_only
  rw [dtB_eq, fluxX_exB_1, fluxX_exB_0, fluxY_exB_eq 1, hll_exB_mid, hll_exB_left,
    laplacian_of_const exB.dx exB.dy exB.Bx 0 (fun _ _ => rfl) 1 1]
  norm_num [exB, ETA]

theorem by_new_exB (i j : ℕ) : by_new exB (dt_eff exB 1) i j = 0 := by
  unfold by_new
  split_ifs with h
  · have h1 : 1 ≤ i := h.1.1
    have h2 : i < 2 := h.1.2
    have h3 : 1 ≤ j := h.2.1
    have h4 : j < 2 := h.2.2
    have hi : i = 1 := by omega
    have hj : j = 1 := by omega
    subst hi
    subst hj
    unfold by_upd by_flux_only
    rw [dtB_eq, fluxX_exB_1, fluxX_exB_0, fluxY_exB_eq 1, hll_exB_mid, hll_exB_left,
      laplacian_of_const exB.dx exB.dy exB.By 0 (fun _ _ => rfl) 1 1]
    norm_num [exB, ETA]
  · rfl

theorem bx_new_exB_21 : bx_new exB (dt_eff exB 1) 2 1 = 0 := by
  unfold bx_new
  rw [if_neg (by decide)]
  rfl

theorem bx_new_exB_01 : bx_new exB (dt_eff exB 1) 0 1 = 0 := by
  unfold bx_new
  rw [if_neg (by decide)]
  rfl

theorem psi_new_exB_11 : psi_new exB (dt_eff exB 1) 1 1 = 8 / 125 := by
  unfold psi_new
  rw [if_pos (by decide : interior exB 1 1)]
  unfold psi_upd
  rw [dtB_eq, fluxX_exB_1, fluxX_exB_0, fluxY_exB_eq 1, hll_exB_mid, hll_exB_left]
  norm_num [exB]

theorem psi_new_exB_01 : psi_new exB (dt_eff exB 1) 0 1 = 1 := by
  unfold psi_new
  rw [if_neg (by decide)]
  norm_num [exB]

theorem divB_exB_01 : divB_new exB (dt_eff exB 1) 0 1 = 1 / 20 := by
  show (bx_new exB (dt_eff exB 1) 1 1 - bx_new exB (dt_eff exB 1) 2 1) / (2 * exB.dx)
      + (by_new exB (dt_eff exB 1) 0 2 - by_new exB (dt_eff exB 1) 0 0) / (2 * exB.dy)
    = 1 / 20
  rw [bx_new_exB_11, bx_new_exB_21, by_new_exB, by_new_exB]
  norm_num [exB]

theorem divB_exB_11 : divB_new exB (dt_eff exB 1) 1 1 = 0 := by
  show (bx_new exB (dt_eff exB 1) 2 1 - bx_new exB (dt_eff exB 1) 0 1) / (2 * exB.dx)
      + (by_new exB (dt_eff exB 1) 1 2 - by_new exB (dt_eff exB 1) 1 0) / (2 * exB.dy)
    = 0
  rw [bx_new_exB_21, bx_new_exB_01, by_new_exB, by_new_exB]
  norm_num [exB]

theorem psi_final_exB_01 : (solve_MHD exB 1 0).psi 0 1 = 2479 / 2500 := by
  show glm_psi CR exB (dt_eff exB 1) 0 1 = 2479 / 2500
  unfold glm_psi
  rw [psi_new_exB_01, divB_exB_01, dtB_eq]
  norm_num [CH, CR]

theorem psi_final_exB_11 : (solve_MHD exB 1 0).psi 1 1 = 998 / 15625 := by
  show glm_psi CR exB (dt_eff exB 1) 1 1 = 998 / 15625
  unfold glm_psi
  rw [psi_new_exB_11, divB_exB_11, dtB_eq]
  norm_num [CH, CR]

/-- C3 counterexample: after one `solve_MHD` step at `exB` the claimed
periodic relation `psi[0][j] = psi[nx-2][j]` fails at `j = 1` (`nx-2 = 1`):
the final GLM loop reads the unwrapped scratch `psi_new`, whose boundary
entry still holds the pre-step value `1`. -/
theorem C3_counterexample :
    (solve_MHD exB 1 0).psi 0 1 ≠ (solve_MHD exB 1 0).psi 1 1 := by
  rw [psi_final_exB_01, psi_final_exB_11]
  norm_num

/-- Modelled from the spec: the final `psi` the claim describes, with the GLM
source applied to the PERIODICALLY WRAPPED flux-updated `psi` and the
centered divergence of the PERIODICALLY WRAPPED new `Bx`, `By`. -/
noncomputable def glm_psi_spec (fl : FlowState) (dt : ℝ) (i j : ℕ) : ℝ :=
  let psiW := wrap_y fl.ny (wrap_x fl.nx (psi_new fl dt))
  let bxW := wrap_y fl.ny (wrap_x fl.nx (bx_new fl dt))
  let byW := wrap_y fl.ny (wrap_x fl.nx (by_new fl dt))
  psiW i j
    - dt * CH * CH *
      ((bxW ((i + 1) % fl.nx) j - bxW ((i + fl.nx - 1) % fl.nx) j) / (2 * fl.dx)
        + (byW i ((j + 1) % fl.ny) - byW i ((j + fl.ny - 1) % fl.ny)) / (2 * fl.dy))
    - dt * CR * psiW i j

theorem glm_psi_spec_exB_01 : glm_psi_spec exB (dt_eff exB 1) 0 1 = 998 / 15625 := by
  unfold glm_psi_spec
  have hpsiW : wrap_y exB.ny (wrap_x exB.nx (psi_new exB (dt_eff exB 1))) 0 1
      = psi_new exB (dt_eff exB 1) 1 1 := by
    simp [wrap_y, wrap_x, exB]
  have hbxW1 : wrap_y exB.ny (wrap_x exB.nx (bx_new exB (dt_eff exB 1))) 1 1
      = bx_new exB (dt_eff exB 1) 1 1 := by
    simp [wrap_y, wrap_x, exB]
  have hbxW2 : wrap_y exB.ny (wrap_x exB.nx (bx_new exB (dt_eff exB 1))) 2 1
      = bx_new exB (dt_eff exB 1) 1 1 := by
    simp [wrap_y, wrap_x, exB]
  have hbyW1 : wrap_y exB.ny (wrap_x exB.nx (by_new exB (dt_eff exB 1))) 0 2
      = by_new exB (dt_eff exB 1) 1 1 := by
    simp [wrap_y, wrap_x, exB]
  have hbyW2 : wrap_y exB.ny (wrap_x exB.nx (by_new exB (dt_eff exB 1))) 0 0
      = by_new exB (dt_eff exB 1) 1 1 := by
    simp [wrap_y, wrap_x, exB]
  show wrap_y exB.ny (wrap_x exB.nx (psi_new exB (dt_eff exB 1))) 0 1
      - dt_eff exB 1 * CH * CH *
        ((wrap_y exB.ny (wrap_x exB.nx (bx_new exB (dt_eff exB 1))) 1 1
            - wrap_y exB.ny (wrap_x exB.nx (bx_new exB (dt_eff exB 1))) 2 1)
              / (2 * exB.dx)
          + (wrap_y exB.ny (wrap_x exB.nx (by_new exB (dt_eff exB 1))) 0 2
            - wrap_y exB.ny (wrap_x exB.nx (by_new exB (dt_eff exB 1))) 0 0)
              / (2 * exB.dy))
      - dt_eff exB 1 * CR
        * wrap_y exB.ny (wrap_x exB.nx (psi_new exB (dt_eff exB 1))) 0 1
    = 998 / 15625
  rw [hpsiW, hbxW1, hbxW2, hbyW1, hbyW2, psi_new_exB_11, bx_new_exB_11, by_new_exB,
    dtB_eq]
  norm_num [CH, CR, exB]

/-- C4 counterexample: at the boundary cell `(0,1)` of `exB` the code's final
`psi` is `2479/2500` (it reads the stale, unwrapped scratch arrays) while the
claim's wrapped formula gives `998/15625`. -/
theorem C4_counterexample :
    (solve_MHD exB 1 0).psi 0 1 ≠ glm_psi_spec exB (dt_eff exB 1) 0 1 := by
  rw [psi_final_exB_01, glm_psi_spec_exB_01]
  norm_num

end MHD
